import Mathlib

/-!
Shallow embedding of the `resource` package (ebitengine-resource):
a typed, lazily-populated resource cache.  The embedding follows the
current sources: the loader (`Loader`, `NewLoader`, `LoadAudio`,
`LoadWAV`, `LoadOGG`, `loadCustomAudio`, `LoadFont`, `LoadImage`,
`LoadShader`, `LoadRaw`, the `Get*Info` accessors, `getAudioInfo`,
`createAudioObject`, `maybeWrapAudioStream`), the resource/metadata
types (`AudioInfo`, `Audio`, `FontInfo`, `Font`, `ImageInfo`, `Image`,
`RawInfo`, `Raw`, `ShaderInfo`, `Shader`), the generic metadata
registry (`registry.Set` / `registry.Assign`) and the stream
decorators (`LoopOGG`, `NopDecorator`).

Modelling conventions:
* Go `float64` fields are modelled as `ℚ` (the code only divides,
  adds and multiplies within [-1,1] style ranges; no claim depends on
  binary rounding).
* Go byte slices are `List Nat`.
* Go maps are association lists with upsert semantics (`mapSet`) and
  first-match lookup (`mapLookup`); a Go map read of a missing key
  yields the zero value, modelled by `Option.getD` with the default
  record.
* `io.ReadSeeker` values flowing through the audio path are symbolic
  terms of the inductive `AStream`; `audio.NewInfiniteLoop` is the
  constructor `AStream.infiniteLoop`.
* External collaborators (the codecs, `image.Decode`,
  `opentype.Parse`, `ebiten.NewShader`, `audio.NewPlayer` failures)
  are an environment record `Env` of possibly-failing functions.
* Go `panic` is the `LoadResult.panicked` constructor, carrying the
  panic message, the loader state reached so far and the event trace.
  A Go `defer r.Close()` runs on every exit path, including panics;
  the embedding emits the close event (and lets a close error take the
  panic over) on each exit path of the functions that install that
  defer.  `LoadOGG` installs no close at all, exactly as the source.
* Each call to an external opener/decoder is recorded as an `Event`,
  so that "the decoder ran exactly once" is a statement about traces.
-/

/-- Byte strings (Go `[]byte`). -/
abbrev Bytes := List Nat

/-- Typed resource keys (Go `type AudioID int` etc.). -/
abbrev AudioID := Int

abbrev FontID := Int

abbrev ImageID := Int

abbrev RawID := Int

abbrev ShaderID := Int

/-- Symbolic `io.ReadSeeker` values of the audio pipeline.
`wavDecoded pcm` is the result of `wav.DecodeWithoutResampling`
(with `pcm` the bytes the stream yields), `oggDecoded src` the result
of `vorbis.DecodeWithoutResampling` on asset bytes `src`,
`customDecoded src` a stream produced by a custom audio loader,
`infiniteLoop s` is `audio.NewInfiniteLoop(s, ...)`, and
`userWrapped n s` stands for an arbitrary caller-built wrapper. -/
inductive AStream where
  | wavDecoded (pcm : Bytes)
  | oggDecoded (src : Bytes)
  | customDecoded (src : Bytes)
  | infiniteLoop (s : AStream)
  | userWrapped (tag : Nat) (s : AStream)
deriving DecidableEq, Repr

/-- Is the stream an `audio.NewInfiniteLoop` wrapper? -/
def AStream.isLoop : AStream → Bool
  | .infiniteLoop _ => true
  | _ => false

/-- Symbolic `*audio.Player`: `fromBytes` is
`audioContext.NewPlayerFromBytes(data)`, `fromStream` is
`audioContext.NewPlayer(s)`. -/
inductive Player where
  | fromBytes (data : Bytes)
  | fromStream (s : AStream)
deriving DecidableEq, Repr

/-- Audio resource metadata (`AudioInfo`).  `streamDecorator = none`
is a nil `StreamDecorator` field.  Field defaults are the Go zero
value. -/
structure AudioInfo where
  path : String := ""
  group : Nat := 0
  volume : ℚ := 0
  streamDecorator : Option (AStream → AStream) := none

/-- Audio resource (`Audio`).  A Go nil `*audio.Player` is `none`.
`duration` is declared by the source but never assigned by this
version of the loader, so it stays at the zero value. -/
structure Audio where
  id : AudioID := 0
  player : Option Player := none
  group : Nat := 0
  volume : ℚ := 0
  duration : ℚ := 0

/-- Font metadata (`FontInfo`). -/
structure FontInfo where
  path : String := ""
  size : Int := 0
  lineSpacing : ℚ := 0

/-- Symbolic `font.Face`: `base tt size` is
`opentype.NewFace(tt, …Size: size…)`, `withLineHeight` is
`text.FaceWithLineHeight`. -/
inductive FontFace where
  | base (tt : Nat) (size : Int)
  | withLineHeight (f : FontFace) (h : ℚ)
deriving DecidableEq, Repr

/-- Font resource (`Font`). -/
structure Font where
  id : FontID := 0
  face : Option FontFace := none

/-- Image metadata (`ImageInfo`). -/
structure ImageInfo where
  path : String := ""
  frameWidth : Int := 0
  frameHeight : Int := 0
deriving DecidableEq, Repr

/-- Image resource (`Image`); `data` is the opaque `*ebiten.Image`
handle obtained from decoding. -/
structure Image where
  id : ImageID := 0
  data : Option Nat := none
  defaultFrameWidth : Int := 0
  defaultFrameHeight : Int := 0
deriving DecidableEq, Repr

/-- Raw metadata (`RawInfo`). -/
structure RawInfo where
  path : String := ""
deriving DecidableEq, Repr

/-- Raw resource (`Raw`): uninterpreted bytes. -/
structure Raw where
  id : RawID := 0
  data : Bytes := []
deriving DecidableEq, Repr

/-- Shader metadata (`ShaderInfo`). -/
structure ShaderInfo where
  path : String := ""
deriving DecidableEq, Repr

/-- Shader resource (`Shader`); `data` is the opaque compiled
`*ebiten.Shader` handle. -/
structure Shader where
  id : ShaderID := 0
  data : Option Nat := none
deriving DecidableEq, Repr

/-- The `io.ReadCloser` returned by `OpenAssetFunc`: the bytes it
yields, whether reading it to the end fails (`io.ReadAll`), and
whether `Close` fails. -/
structure Reader where
  data : Bytes := []
  readErr : Option String := none
  closeErr : Option String := none

/-- Go map lookup on an association list (first binding wins; `mapSet`
keeps keys unique). -/
def mapLookup {α : Type} : List (Int × α) → Int → Option α
  | [], _ => none
  | (k, v) :: rest, k' => if k = k' then some v else mapLookup rest k'

/-- Go map assignment `m[k] = v` (upsert, preserving `len` semantics). -/
def mapSet {α : Type} : List (Int × α) → Int → α → List (Int × α)
  | [], k, v => [(k, v)]
  | (k0, v0) :: rest, k, v =>
    if k0 = k then (k, v) :: rest else (k0, v0) :: mapSet rest k v

/-- `registry.Set`: unconditional upsert (registry.go). -/
def registrySet {α : Type} (m : List (Int × α)) (id : Int) (info : α) :
    List (Int × α) :=
  mapSet m id info

/-- `registry.Assign`: `Set` for every pair of the batch (registry.go). -/
def registryAssign {α : Type} (m : List (Int × α)) (batch : List (Int × α)) :
    List (Int × α) :=
  batch.foldl (fun acc kv => registrySet acc kv.1 kv.2) m

/-- The loader state (`Loader`): the injected opener and custom audio
hook, one metadata registry per kind, and one memoization table per
kind (audio split into wav / ogg / custom sub-tables). -/
structure Loader where
  openAssetFunc : String → Reader
  customAudioLoader : Option (Bytes → AudioInfo → Option AStream) := none
  audioRegistry : List (AudioID × AudioInfo) := []
  imageRegistry : List (ImageID × ImageInfo) := []
  fontRegistry : List (FontID × FontInfo) := []
  shaderRegistry : List (ShaderID × ShaderInfo) := []
  rawRegistry : List (RawID × RawInfo) := []
  images : List (ImageID × Image) := []
  shaders : List (ShaderID × Shader) := []
  wavs : List (AudioID × Audio) := []
  oggs : List (AudioID × Audio) := []
  customAudio : List (AudioID × Audio) := []
  fonts : List (FontID × Font) := []
  raws : List (RawID × Raw) := []

/-- `NewLoader`: every cache and registry starts empty.  (In Go the
opener is assigned to the `OpenAssetFunc` field right after
construction; here it is passed in.) -/
def NewLoader (openAsset : String → Reader) : Loader :=
  { openAssetFunc := openAsset }

/-- External collaborators: the per-kind decoders and the player
constructor failure mode, each a possibly-failing pure function. -/
structure Env where
  /-- `wav.DecodeWithoutResampling`: error, or the PCM content of the
  resulting stream (`stream.Length()` bytes). -/
  wavDecode : Bytes → Except String Bytes := fun _ => .ok []
  /-- Failure of `io.ReadFull(stream, wavData)` on the decoded wav. -/
  wavReadFullErr : Bytes → Option String := fun _ => none
  /-- `vorbis.DecodeWithoutResampling`: may fail. -/
  oggDecode : Bytes → Except String Unit := fun _ => .ok ()
  /-- `image.Decode` followed by `ebiten.NewImageFromImage`: error or
  an opaque image handle. -/
  imageDecode : Bytes → Except String Nat := fun _ => .ok 0
  /-- `opentype.Parse`: error or an opaque parsed-font handle. -/
  fontParse : Bytes → Except String Nat := fun _ => .ok 0
  /-- Failure of `opentype.NewFace`. -/
  newFaceErr : Nat → Option String := fun _ => none
  /-- `face.Metrics().Height.Round()` of the freshly built face. -/
  faceHeight : FontFace → Int := fun _ => 0
  /-- `ebiten.NewShader`: error or an opaque compiled-shader handle. -/
  shaderCompile : Bytes → Except String Nat := fun _ => .ok 0
  /-- Failure of `audioContext.NewPlayer` on a given stream. -/
  newPlayerErr : AStream → Option String := fun _ => none

/-- Calls to external collaborators, recorded in order. -/
inductive Event where
  | openAsset (path : String)
  | closeAsset (path : String)
  | decodeWav (id : AudioID) (path : String)
  | decodeOgg (id : AudioID) (path : String)
  | decodeCustom (id : AudioID) (path : String)
  | decodeImage (id : ImageID) (path : String)
  | readRaw (id : RawID) (path : String)
  | readShader (id : ShaderID) (path : String)
  | readFont (id : FontID) (path : String)
deriving DecidableEq, Repr

/-- Outcome of one loader operation: normal return, or a Go `panic`
with its message.  Both carry the loader state reached and the trace
of external calls made. -/
inductive LoadResult (α : Type) where
  | ok (value : α) (l : Loader) (events : List Event)
  | panicked (msg : String) (l : Loader) (events : List Event)

/-- `Loader.getAudioInfo`: registry lookup; absence panics with
`unregistered audio with id=%d`. -/
def getAudioInfo (l : Loader) (id : AudioID) : Except String AudioInfo :=
  match mapLookup l.audioRegistry id with
  | some info => .ok info
  | none => .error ("unregistered audio with id=" ++ toString id)

/-- `Loader.createAudioObject`: resolves the volume as
`(info.Volume / 2) + 0.5` and packs the audio resource. -/
def createAudioObject (p : Player) (id : AudioID) (info : AudioInfo) : Audio :=
  { id := id
    player := some p
    volume := info.volume / 2 + 1/2
    group := info.group }

/-- `Loader.maybeWrapAudioStream`: apply the stream decorator when one
is registered, otherwise return the stream unchanged. -/
def maybeWrapAudioStream (r : AStream) (info : AudioInfo) : AStream :=
  match info.streamDecorator with
  | some d => d r
  | none => r

/-- `LoopOGG` (decorators.go): wrap an OGG stream into an infinite
loop via `audio.NewInfiniteLoop`. -/
def LoopOGG (stream : AStream) : AStream :=
  AStream.infiniteLoop stream

/-- `NopDecorator` (decorators.go): return the input stream as is. -/
def NopDecorator (stream : AStream) : AStream :=
  stream

/-- `Loader.LoadWAV`: cache lookup; on miss decode the wav, then
either slurp the PCM into memory (`NewPlayerFromBytes`) when no
decorator is set, or build the player from the decorated stream.  The
opened reader is closed on every exit path by the deferred `Close`,
whose own failure panics (and, running last, takes the panic over). -/
def LoadWAV (env : Env) (l : Loader) (id : AudioID) : LoadResult Audio :=
  match mapLookup l.wavs id with
  | some a => .ok a l []
  | none =>
    match getAudioInfo l id with
    | .error msg => .panicked msg l []
    | .ok wavInfo =>
      let p := wavInfo.path
      let r := l.openAssetFunc p
      match env.wavDecode r.data with
      | .error e =>
        match r.closeErr with
        | some ce =>
          .panicked ("closing \"" ++ p ++ "\" wav reader: " ++ ce) l
            [.openAsset p, .decodeWav id p, .closeAsset p]
        | none =>
          .panicked ("decode \"" ++ p ++ "\" wav: " ++ e) l
            [.openAsset p, .decodeWav id p, .closeAsset p]
      | .ok pcm =>
        match wavInfo.streamDecorator with
        | none =>
          -- Good, can read it into the memory.
          match env.wavReadFullErr pcm with
          | some e =>
            match r.closeErr with
            | some ce =>
              .panicked ("closing \"" ++ p ++ "\" wav reader: " ++ ce) l
                [.openAsset p, .decodeWav id p, .closeAsset p]
            | none =>
              .panicked ("read \"" ++ p ++ "\" wav: " ++ e) l
                [.openAsset p, .decodeWav id p, .closeAsset p]
          | none =>
            let player := Player.fromBytes pcm
            let a := createAudioObject player id wavInfo
            let l' := { l with wavs := mapSet l.wavs id a }
            match r.closeErr with
            | some ce =>
              .panicked ("closing \"" ++ p ++ "\" wav reader: " ++ ce) l'
                [.openAsset p, .decodeWav id p, .closeAsset p]
            | none => .ok a l' [.openAsset p, .decodeWav id p, .closeAsset p]
        | some d =>
          -- This is an explicit way to tell "don't read it into the memory".
          match env.newPlayerErr (d (AStream.wavDecoded pcm)) with
          | some e =>
            match r.closeErr with
            | some ce =>
              .panicked ("closing \"" ++ p ++ "\" wav reader: " ++ ce) l
                [.openAsset p, .decodeWav id p, .closeAsset p]
            | none =>
              .panicked e l [.openAsset p, .decodeWav id p, .closeAsset p]
          | none =>
            let player := Player.fromStream (d (AStream.wavDecoded pcm))
            let a := createAudioObject player id wavInfo
            let l' := { l with wavs := mapSet l.wavs id a }
            match r.closeErr with
            | some ce =>
              .panicked ("closing \"" ++ p ++ "\" wav reader: " ++ ce) l'
                [.openAsset p, .decodeWav id p, .closeAsset p]
            | none => .ok a l' [.openAsset p, .decodeWav id p, .closeAsset p]

/-- `Loader.LoadOGG`: cache lookup; on miss decode the vorbis stream,
maybe decorate it, build the player, memoize.  The reader is
deliberately never closed ("Do not close this reader as it would
break the stream"), so no close event appears on any path. -/
def LoadOGG (env : Env) (l : Loader) (id : AudioID) : LoadResult Audio :=
  match mapLookup l.oggs id with
  | some a => .ok a l []
  | none =>
    match getAudioInfo l id with
    | .error msg => .panicked msg l []
    | .ok oggInfo =>
      let p := oggInfo.path
      let r := l.openAssetFunc p
      match env.oggDecode r.data with
      | .error e =>
        .panicked ("decode \"" ++ p ++ "\" ogg: " ++ e) l
          [.openAsset p, .decodeOgg id p]
      | .ok _ =>
        let stream := maybeWrapAudioStream (AStream.oggDecoded r.data) oggInfo
        match env.newPlayerErr stream with
        | some e => .panicked e l [.openAsset p, .decodeOgg id p]
        | none =>
          let a := createAudioObject (Player.fromStream stream) id oggInfo
          .ok a { l with oggs := mapSet l.oggs id a }
            [.openAsset p, .decodeOgg id p]

/-- `Loader.loadCustomAudio`: cache lookup; a fresh load needs the
`CustomAudioLoader` hook, opens the asset, hands the bytes to the
hook, and either memoizes the produced stream's player or reports
"not handled" (`false`).  The deferred `Close` runs on every exit
path once the asset was opened. -/
def loadCustomAudio (env : Env) (l : Loader) (id : AudioID) (info : AudioInfo) :
    LoadResult (Audio × Bool) :=
  match mapLookup l.customAudio id with
  | some a => .ok (a, true) l []
  | none =>
    match l.customAudioLoader with
    | none =>
      -- Can't load a new custom audio resource without this function.
      .ok ({}, false) l []
    | some f =>
      let p := info.path
      let r := l.openAssetFunc p
      match f r.data info with
      | none =>
        match r.closeErr with
        | some ce =>
          .panicked ("closing \"" ++ p ++ "\" custom audio reader: " ++ ce) l
            [.openAsset p, .decodeCustom id p, .closeAsset p]
        | none =>
          .ok ({}, false) l [.openAsset p, .decodeCustom id p, .closeAsset p]
      | some stream =>
        match env.newPlayerErr (maybeWrapAudioStream stream info) with
        | some e =>
          match r.closeErr with
          | some ce =>
            .panicked ("closing \"" ++ p ++ "\" custom audio reader: " ++ ce) l
              [.openAsset p, .decodeCustom id p, .closeAsset p]
          | none =>
            .panicked e l [.openAsset p, .decodeCustom id p, .closeAsset p]
        | none =>
          let a :=
            createAudioObject
              (Player.fromStream (maybeWrapAudioStream stream info)) id info
          let l' := { l with customAudio := mapSet l.customAudio id a }
          match r.closeErr with
          | some ce =>
            .panicked ("closing \"" ++ p ++ "\" custom audio reader: " ++ ce) l'
              [.openAsset p, .decodeCustom id p, .closeAsset p]
          | none =>
            .ok (a, true) l' [.openAsset p, .decodeCustom id p, .closeAsset p]

/-- Go `strings.HasSuffix`, decided on the character sequences of
the strings. -/
def goHasSuffix (s sfx : String) : Bool :=
  sfx.data.isSuffixOf s.data

/-- `Loader.LoadAudio`: dispatch on the registered path's suffix —
`.ogg` to `LoadOGG`, `.wav` to `LoadWAV`; otherwise try the custom
audio path (also when only cached custom resources remain), and
failing that panic with the unrecognized-format error naming the
path. -/
def LoadAudio (env : Env) (l : Loader) (id : AudioID) : LoadResult Audio :=
  match getAudioInfo l id with
  | .error msg => .panicked msg l []
  | .ok audioInfo =>
    if goHasSuffix audioInfo.path ".ogg" then LoadOGG env l id
    else if goHasSuffix audioInfo.path ".wav" then LoadWAV env l id
    else
      let unrec := fun (l' : Loader) (evs : List Event) =>
        LoadResult.panicked
          ("load \"" ++ audioInfo.path ++ "\" audio: unrecognized format")
          l' evs
      if l.customAudio.length ≠ 0 ∨ l.customAudioLoader.isSome then
        -- Even if CustomAudioLoader is nil at this point, we might still
        -- have cached custom audio resources.
        match loadCustomAudio env l id audioInfo with
        | .ok (a, true) l' evs => .ok a l' evs
        | .ok (_, false) l' evs => unrec l' evs
        | .panicked msg l' evs => .panicked msg l' evs
      else unrec l []

/-- `Loader.GetAudioInfo`: plain map read; a missing key yields the
zero-value metadata record. -/
def GetAudioInfo (l : Loader) (id : AudioID) : AudioInfo :=
  (mapLookup l.audioRegistry id).getD {}

/-- Go `math.Round`: round half away from zero. -/
def goRound (q : ℚ) : Int :=
  if q < 0 then -⌊-q + 1/2⌋ else ⌊q + 1/2⌋

/-- `Loader.LoadFont`: cache lookup; on miss read the whole asset,
parse the outline font, build the face at the configured size, and —
when `LineSpacing` is neither 0 nor 1 — override the line height with
`math.Round(face.Metrics().Height.Round() * LineSpacing)`.  The
deferred `Close` runs on every exit path. -/
def LoadFont (env : Env) (l : Loader) (id : FontID) : LoadResult Font :=
  match mapLookup l.fonts id with
  | some f => .ok f l []
  | none =>
    match mapLookup l.fontRegistry id with
    | none => .panicked ("unregistered font with id=" ++ toString id) l []
    | some fontInfo =>
      let p := fontInfo.path
      let r := l.openAssetFunc p
      match r.readErr with
      | some e =>
        match r.closeErr with
        | some ce =>
          .panicked ("closing \"" ++ p ++ "\" font reader: " ++ ce) l
            [.openAsset p, .readFont id p, .closeAsset p]
        | none =>
          .panicked ("reading \"" ++ p ++ "\" data: " ++ e) l
            [.openAsset p, .readFont id p, .closeAsset p]
      | none =>
        match env.fontParse r.data with
        | .error e =>
          match r.closeErr with
          | some ce =>
            .panicked ("closing \"" ++ p ++ "\" font reader: " ++ ce) l
              [.openAsset p, .readFont id p, .closeAsset p]
          | none =>
            .panicked ("parsing \"" ++ p ++ "\" font: " ++ e) l
              [.openAsset p, .readFont id p, .closeAsset p]
        | .ok tt =>
          match env.newFaceErr tt with
          | some e =>
            match r.closeErr with
            | some ce =>
              .panicked ("closing \"" ++ p ++ "\" font reader: " ++ ce) l
                [.openAsset p, .readFont id p, .closeAsset p]
            | none =>
              .panicked ("creating a font face for \"" ++ p ++ "\": " ++ e) l
                [.openAsset p, .readFont id p, .closeAsset p]
          | none =>
            let face0 := FontFace.base tt fontInfo.size
            let face :=
              if fontInfo.lineSpacing ≠ 0 ∧ fontInfo.lineSpacing ≠ 1 then
                let h := (env.faceHeight face0 : ℚ) * fontInfo.lineSpacing
                FontFace.withLineHeight face0 (goRound h : ℚ)
              else face0
            let f : Font := { id := id, face := some face }
            let l' := { l with fonts := mapSet l.fonts id f }
            match r.closeErr with
            | some ce =>
              .panicked ("closing \"" ++ p ++ "\" font reader: " ++ ce) l'
                [.openAsset p, .readFont id p, .closeAsset p]
            | none => .ok f l' [.openAsset p, .readFont id p, .closeAsset p]

/-- `Loader.GetFontInfo`: plain map read; a missing key yields the
zero-value metadata record. -/
def GetFontInfo (l : Loader) (id : FontID) : FontInfo :=
  (mapLookup l.fontRegistry id).getD {}

/-- `Loader.LoadImage`: cache lookup; on miss decode the image bytes,
realize the engine image, carry the default frame dimensions through
from metadata, memoize.  The deferred `Close` runs on every exit
path. -/
def LoadImage (env : Env) (l : Loader) (id : ImageID) : LoadResult Image :=
  match mapLookup l.images id with
  | some img => .ok img l []
  | none =>
    match mapLookup l.imageRegistry id with
    | none => .panicked ("unregistered image with id=" ++ toString id) l []
    | some imageInfo =>
      let p := imageInfo.path
      let r := l.openAssetFunc p
      match env.imageDecode r.data with
      | .error e =>
        match r.closeErr with
        | some ce =>
          .panicked ("closing \"" ++ p ++ "\" image reader: " ++ ce) l
            [.openAsset p, .decodeImage id p, .closeAsset p]
        | none =>
          .panicked ("decode \"" ++ p ++ "\" image: " ++ e) l
            [.openAsset p, .decodeImage id p, .closeAsset p]
      | .ok pix =>
        let img : Image :=
          { id := id
            data := some pix
            defaultFrameWidth := imageInfo.frameWidth
            defaultFrameHeight := imageInfo.frameHeight }
        let l' := { l with images := mapSet l.images id img }
        match r.closeErr with
        | some ce =>
          .panicked ("closing \"" ++ p ++ "\" image reader: " ++ ce) l'
            [.openAsset p, .decodeImage id p, .closeAsset p]
        | none => .ok img l' [.openAsset p, .decodeImage id p, .closeAsset p]

/-- `Loader.GetImageInfo`: plain map read; a missing key yields the
zero-value metadata record. -/
def GetImageInfo (l : Loader) (id : ImageID) : ImageInfo :=
  (mapLookup l.imageRegistry id).getD {}

/-- `Loader.LoadShader`: cache lookup; on miss read the whole asset,
compile it, memoize.  The deferred `Close` runs on every exit path. -/
def LoadShader (env : Env) (l : Loader) (id : ShaderID) : LoadResult Shader :=
  match mapLookup l.shaders id with
  | some s => .ok s l []
  | none =>
    match mapLookup l.shaderRegistry id with
    | none => .panicked ("unregistered shader with id=" ++ toString id) l []
    | some shaderInfo =>
      let p := shaderInfo.path
      let r := l.openAssetFunc p
      match r.readErr with
      | some e =>
        match r.closeErr with
        | some ce =>
          .panicked ("closing \"" ++ p ++ "\" shader reader: " ++ ce) l
            [.openAsset p, .readShader id p, .closeAsset p]
        | none =>
          .panicked ("read \"" ++ p ++ "\" shader: " ++ e) l
            [.openAsset p, .readShader id p, .closeAsset p]
      | none =>
        match env.shaderCompile r.data with
        | .error e =>
          match r.closeErr with
          | some ce =>
            .panicked ("closing \"" ++ p ++ "\" shader reader: " ++ ce) l
              [.openAsset p, .readShader id p, .closeAsset p]
          | none =>
            .panicked ("compile \"" ++ p ++ "\" shader: " ++ e) l
              [.openAsset p, .readShader id p, .closeAsset p]
        | .ok handle =>
          let s : Shader := { id := id, data := some handle }
          let l' := { l with shaders := mapSet l.shaders id s }
          match r.closeErr with
          | some ce =>
            .panicked ("closing \"" ++ p ++ "\" shader reader: " ++ ce) l'
              [.openAsset p, .readShader id p, .closeAsset p]
          | none => .ok s l' [.openAsset p, .readShader id p, .closeAsset p]

/-- `Loader.LoadRaw`: cache lookup; on miss read the whole asset
verbatim, memoize.  The deferred `Close` runs on every exit path. -/
def LoadRaw (_env : Env) (l : Loader) (id : RawID) : LoadResult Raw :=
  match mapLookup l.raws id with
  | some raw => .ok raw l []
  | none =>
    match mapLookup l.rawRegistry id with
    | none => .panicked ("unregistered raw with id=" ++ toString id) l []
    | some rawInfo =>
      let p := rawInfo.path
      let r := l.openAssetFunc p
      match r.readErr with
      | some e =>
        match r.closeErr with
        | some ce =>
          .panicked ("closing \"" ++ p ++ "\" raw reader: " ++ ce) l
            [.openAsset p, .readRaw id p, .closeAsset p]
        | none =>
          .panicked ("read \"" ++ p ++ "\" raw: " ++ e) l
            [.openAsset p, .readRaw id p, .closeAsset p]
      | none =>
        let raw : Raw := { id := id, data := r.data }
        let l' := { l with raws := mapSet l.raws id raw }
        match r.closeErr with
        | some ce =>
          .panicked ("closing \"" ++ p ++ "\" raw reader: " ++ ce) l'
            [.openAsset p, .readRaw id p, .closeAsset p]
        | none => .ok raw l' [.openAsset p, .readRaw id p, .closeAsset p]

/-- `Loader.GetRawInfo`: plain map read; a missing key yields the
zero-value metadata record. -/
def GetRawInfo (l : Loader) (id : RawID) : RawInfo :=
  (mapLookup l.rawRegistry id).getD {}

/-- One caller action on the audio surface of a single loader:
register metadata (`AudioRegistry.Set`), install or clear the
`CustomAudioLoader` hook, or call one of the audio load entry
points. -/
inductive AudioOp where
  | set (id : AudioID) (info : AudioInfo)
  | setCustomLoader (f : Option (Bytes → AudioInfo → Option AStream))
  | loadAudio (id : AudioID)
  | loadWAV (id : AudioID)
  | loadOGG (id : AudioID)

/-- Forget a load's value, keeping outcome, state and trace. -/
def LoadResult.discardValue {α : Type} : LoadResult α → LoadResult Unit
  | .ok _ l evs => .ok () l evs
  | .panicked msg l evs => .panicked msg l evs

/-- Execute one `AudioOp` against the loader. -/
def runAudioOp (env : Env) (l : Loader) : AudioOp → LoadResult Unit
  | .set id info =>
    .ok () { l with audioRegistry := registrySet l.audioRegistry id info } []
  | .setCustomLoader f => .ok () { l with customAudioLoader := f } []
  | .loadAudio id => (LoadAudio env l id).discardValue
  | .loadWAV id => (LoadWAV env l id).discardValue
  | .loadOGG id => (LoadOGG env l id).discardValue

/-- Execute a single-threaded sequence of audio operations.  A Go
panic terminates the program, so the run stops at the first panic;
the returned flag records whether that happened, and the trace is the
concatenation of all external calls made before stopping. -/
def runAudioOps (env : Env) : Loader → List AudioOp → Loader × List Event × Bool
  | l, [] => (l, [], false)
  | l, op :: rest =>
    match runAudioOp env l op with
    | .ok _ l' evs =>
      let r := runAudioOps env l' rest
      (r.1, evs ++ r.2.1, r.2.2)
    | .panicked _ l' evs => (l', evs, true)

/-- Does this event record a WAV decode for identifier `id`? -/
def Event.isWavDecodeFor (id : AudioID) : Event → Bool
  | .decodeWav j _ => j == id
  | _ => false

/-- Does this event record an OGG decode for identifier `id`? -/
def Event.isOggDecodeFor (id : AudioID) : Event → Bool
  | .decodeOgg j _ => j == id
  | _ => false

/-- Does this event record a custom-loader invocation for `id`? -/
def Event.isCustomDecodeFor (id : AudioID) : Event → Bool
  | .decodeCustom j _ => j == id
  | _ => false

/-- Does this event record any audio decode for identifier `id`? -/
def Event.isAudioDecodeFor (id : AudioID) (e : Event) : Bool :=
  e.isWavDecodeFor id || e.isOggDecodeFor id || e.isCustomDecodeFor id

/-- Is this event an asset open? -/
def Event.isOpen : Event → Bool
  | .openAsset _ => true
  | _ => false

/-- Is this event an asset close? -/
def Event.isClose : Event → Bool
  | .closeAsset _ => true
  | _ => false

/-- The trace of a load's outcome. -/
def LoadResult.events {α : Type} : LoadResult α → List Event
  | .ok _ _ evs => evs
  | .panicked _ _ evs => evs

/-- The five resource kinds of the package. -/
inductive ResourceKind where
  | audio
  | font
  | image
  | shader
  | raw
deriving DecidableEq

/-- The kinds for which the loader declares a read-only `Get*Info`
metadata accessor: `GetAudioInfo`, `GetFontInfo`, `GetImageInfo`,
`GetRawInfo`.  The source declares no shader accessor. -/
def loaderInfoAccessorKinds : List ResourceKind :=
  [.audio, .font, .image, .raw]

/-- Facts about one successfully returning audio operation, used to
propagate the at-most-one-decode-per-sub-format invariant: each
sub-format decode count of the emitted trace is at most one, a decode
for `id` only happens when `id` was absent from that sub-format table
and leaves it cached there, and each sub-format table only grows. -/
def DecodeOnceStep (l l' : Loader) (evs : List Event) : Prop :=
  ∀ id : AudioID,
    (evs.countP (Event.isWavDecodeFor id) ≤ 1 ∧
      (1 ≤ evs.countP (Event.isWavDecodeFor id) →
        mapLookup l.wavs id = none ∧ (mapLookup l'.wavs id).isSome) ∧
      ((mapLookup l.wavs id).isSome → (mapLookup l'.wavs id).isSome)) ∧
    (evs.countP (Event.isOggDecodeFor id) ≤ 1 ∧
      (1 ≤ evs.countP (Event.isOggDecodeFor id) →
        mapLookup l.oggs id = none ∧ (mapLookup l'.oggs id).isSome) ∧
      ((mapLookup l.oggs id).isSome → (mapLookup l'.oggs id).isSome)) ∧
    (evs.countP (Event.isCustomDecodeFor id) ≤ 1 ∧
      (1 ≤ evs.countP (Event.isCustomDecodeFor id) →
        mapLookup l.customAudio id = none ∧
          (mapLookup l'.customAudio id).isSome) ∧
      ((mapLookup l.customAudio id).isSome →
        (mapLookup l'.customAudio id).isSome))

/-- Facts about an audio operation that ends in a panic (the program
stops there): each sub-format decode count of the emitted trace is at
most one, and a decode for `id` only happens when `id` was absent
from that sub-format table. -/
def DecodeOncePanic (l : Loader) (evs : List Event) : Prop :=
  ∀ id : AudioID,
    (evs.countP (Event.isWavDecodeFor id) ≤ 1 ∧
      (1 ≤ evs.countP (Event.isWavDecodeFor id) →
        mapLookup l.wavs id = none)) ∧
    (evs.countP (Event.isOggDecodeFor id) ≤ 1 ∧
      (1 ≤ evs.countP (Event.isOggDecodeFor id) →
        mapLookup l.oggs id = none)) ∧
    (evs.countP (Event.isCustomDecodeFor id) ≤ 1 ∧
      (1 ≤ evs.countP (Event.isCustomDecodeFor id) →
        mapLookup l.customAudio id = none))

/-- Invariant tying an accumulated trace to the loader state: every
sub-format decode count is at most one, and a past decode for `id`
means `id` is cached in that sub-format table. -/
def TraceInv (l : Loader) (t : List Event) : Prop :=
  ∀ id : AudioID,
    (t.countP (Event.isWavDecodeFor id) ≤ 1 ∧
      (1 ≤ t.countP (Event.isWavDecodeFor id) →
        (mapLookup l.wavs id).isSome)) ∧
    (t.countP (Event.isOggDecodeFor id) ≤ 1 ∧
      (1 ≤ t.countP (Event.isOggDecodeFor id) →
        (mapLookup l.oggs id).isSome)) ∧
    (t.countP (Event.isCustomDecodeFor id) ≤ 1 ∧
      (1 ≤ t.countP (Event.isCustomDecodeFor id) →
        (mapLookup l.customAudio id).isSome))

-- ### Concrete instances used by witnesses and counterexamples

/-- A concrete opener: the asset at `p` holds one byte, the length of
`p`; reads and closes never fail. -/
def demoOpen : String → Reader := fun p => { data := [p.length] }

/-- A concrete environment in which every decoder succeeds: wav
decoding yields the source bytes as PCM, every handle is 0. -/
def demoEnv : Env := { wavDecode := fun b => .ok b }

/-- A loader with raw id 1 registered at "a.json". -/
def demoRawLoader : Loader :=
  { NewLoader demoOpen with
    rawRegistry := registrySet [] 1 { path := "a.json" } }

/-- The raw resource `LoadRaw` produces for id 1 ("a.json" is 6 bytes
long, so the asset content is `[6]`). -/
def demoRawValue : Raw := { id := 1, data := [6] }

/-- The loader state after the first `LoadRaw 1`. -/
def demoRawState : Loader :=
  { demoRawLoader with raws := [(1, demoRawValue)] }

/-- A loader with image id 1 registered at "i.png". -/
def demoImageLoader : Loader :=
  { NewLoader demoOpen with
    imageRegistry := registrySet [] 1 { path := "i.png", frameWidth := 8, frameHeight := 16 } }

/-- The image resource `LoadImage` produces for id 1. -/
def demoImageValue : Image :=
  { id := 1, data := some 0, defaultFrameWidth := 8, defaultFrameHeight := 16 }

/-- The loader state after the first `LoadImage 1`. -/
def demoImageState : Loader :=
  { demoImageLoader with images := [(1, demoImageValue)] }

/-- A loader with audio id 2 registered at "b.ogg", without a stream
decorator. -/
def demoOggLoader : Loader :=
  { NewLoader demoOpen with
    audioRegistry := registrySet [] 2 { path := "b.ogg" } }

/-- The audio resource `LoadOGG` produces for id 2: the player wraps
the decoded vorbis stream itself, not an infinite loop. -/
def demoOggValue : Audio :=
  createAudioObject (Player.fromStream (AStream.oggDecoded [5])) 2
    { path := "b.ogg" }

/-- A loader with audio id 3 registered at "c.mp3" (neither `.ogg`
nor `.wav`). -/
def demoMp3Loader : Loader :=
  { NewLoader demoOpen with
    audioRegistry := registrySet [] 3 { path := "c.mp3" } }

/-- A loader with audio id 4 registered at "d.wav". -/
def demoWavLoader : Loader :=
  { NewLoader demoOpen with
    audioRegistry := registrySet [] 4 { path := "d.wav" } }

/-- The operation sequence of the C4 counterexample: register id 1 as
a `.wav`, load it, re-register the same id as an `.ogg`, load it
again. -/
def c4ops : List AudioOp :=
  [ .set 1 { path := "a.wav" }, .loadAudio 1,
    .set 1 { path := "a.ogg" }, .loadAudio 1 ]

/-- Does this event record the raw read (`io.ReadAll`) for `id`? -/
def Event.isRawReadFor (id : RawID) : Event → Bool
  | .readRaw j _ => j == id
  | _ => false

/-- Does this event record the image decode for `id`? -/
def Event.isImageDecodeFor (id : ImageID) : Event → Bool
  | .decodeImage j _ => j == id
  | _ => false

/-- The loader state after the first `LoadWAV 4` on the doubly
registered demo loader. -/
def demoWav2State : Loader :=
  { NewLoader demoOpen with
    audioRegistry :=
      registrySet (registrySet (NewLoader demoOpen).audioRegistry 4
          { path := "d.wav", volume := 1 }) 4
        { path := "d.wav", volume := -1 },
    wavs := [(4, createAudioObject (.fromBytes [5]) 4
        { path := "d.wav", volume := -1 })] }

/-- The trace of the first `LoadWAV 4` on the demo loader. -/
def demoWavEvs : List Event :=
  [.openAsset "d.wav", .decodeWav 4 "d.wav", .closeAsset "d.wav"]

/-- The loader state after `LoadOGG 2` on the demo ogg loader. -/
def demoOggState : Loader :=
  { demoOggLoader with oggs := [(2, demoOggValue)] }

/-- Audio metadata for id 5 with the explicit `LoopOGG` decorator. -/
def demoOggLoopInfo : AudioInfo :=
  { path := "e.ogg", streamDecorator := some LoopOGG }

/-- A loader with audio id 5 registered at "e.ogg" with `LoopOGG`. -/
def demoOggLoopLoader : Loader :=
  { NewLoader demoOpen with audioRegistry := registrySet [] 5 demoOggLoopInfo }

/-- The audio resource produced for id 5: the player wraps the
explicitly looped stream. -/
def demoOggLoopValue : Audio :=
  createAudioObject (Player.fromStream (.infiniteLoop (.oggDecoded [5]))) 5
    demoOggLoopInfo

/-- The loader state after `LoadOGG 5` on the looped demo loader. -/
def demoOggLoopState : Loader :=
  { demoOggLoopLoader with oggs := [(5, demoOggLoopValue)] }

/-- The audio resource `LoadWAV` produces for id 4 at "d.wav" with no
decorator: an in-memory players over the PCM bytes. -/
def demoWavValue : Audio :=
  createAudioObject (Player.fromBytes [5]) 4 { path := "d.wav" }

/-- The loader state after `LoadWAV 4` on the demo wav loader. -/
def demoWavState : Loader :=
  { demoWavLoader with wavs := [(4, demoWavValue)] }

/-- Audio metadata for id 6 with the `NopDecorator` stream decorator. -/
def demoWavNopInfo : AudioInfo :=
  { path := "f.wav", streamDecorator := some NopDecorator }

/-- A loader with audio id 6 registered at "f.wav" with
`NopDecorator` set (the explicit skip-materialization request). -/
def demoWavNopLoader : Loader :=
  { NewLoader demoOpen with audioRegistry := registrySet [] 6 demoWavNopInfo }

/-- The audio resource produced for id 6: a streaming player over the
undecorated wav stream, not an in-memory byte player. -/
def demoWavNopValue : Audio :=
  createAudioObject (Player.fromStream (.wavDecoded [5])) 6 demoWavNopInfo

/-- The loader state after `LoadWAV 6` on the nop-decorated loader. -/
def demoWavNopState : Loader :=
  { demoWavNopLoader with wavs := [(6, demoWavNopValue)] }

/-- Audio metadata for id 8 at "g.xm" (a custom format). -/
def demoXmInfo : AudioInfo := { path := "g.xm" }

/-- The custom audio resource cached for id 8. -/
def demoXmValue : Audio :=
  createAudioObject (Player.fromStream (.customDecoded [4])) 8 demoXmInfo

/-- A loader that already produced and memoized the custom resource
for id 8 ("g.xm"). -/
def demoXmLoader : Loader :=
  { NewLoader demoOpen with
    audioRegistry := registrySet [] 8 demoXmInfo,
    customAudio := [(8, demoXmValue)] }

/-- An opener whose readers fail to close with error "boom". -/
def demoBadCloseOpen : String → Reader :=
  fun p => { data := [p.length], closeErr := some "boom" }

/-- A raw loader (id 1, "a.json") over the failing-close opener. -/
def demoBadRawLoader : Loader :=
  { NewLoader demoBadCloseOpen with
    rawRegistry := registrySet [] 1 { path := "a.json" } }

/-- A loader with audio id 9 registered at "h.ogg". -/
def demoOgg9Loader : Loader :=
  { NewLoader demoOpen with audioRegistry := registrySet [] 9 { path := "h.ogg" } }

/-- The audio resource produced for id 9. -/
def demoOgg9Value : Audio :=
  createAudioObject (Player.fromStream (AStream.oggDecoded [5])) 9
    { path := "h.ogg" }

/-- The loader state after `LoadOGG 9`. -/
def demoOgg9State : Loader :=
  { demoOgg9Loader with oggs := [(9, demoOgg9Value)] }

/-- Does this event record the font read (`io.ReadAll`) for `id`? -/
def Event.isFontReadFor (id : FontID) : Event → Bool
  | .readFont j _ => j == id
  | _ => false

/-- Does this event record the shader read (`io.ReadAll`) for `id`? -/
def Event.isShaderReadFor (id : ShaderID) : Event → Bool
  | .readShader j _ => j == id
  | _ => false

-- ## Theorems

theorem mapLookup_mapSet_self {α : Type} (m : List (Int × α)) (k : Int) (v : α) :
    mapLookup (mapSet m k v) k = some v := by
  induction m with
  | nil => simp [mapSet, mapLookup]
  | cons hd tl ih =>
    obtain ⟨k0, v0⟩ := hd
    by_cases h : k0 = k
    · simp [mapSet, h, mapLookup]
    · simp [mapSet, h, mapLookup, ih]

theorem mapLookup_mapSet_ne {α : Type} (m : List (Int × α)) (k j : Int) (v : α)
    (hne : k ≠ j) : mapLookup (mapSet m k v) j = mapLookup m j := by
  induction m with
  | nil => simp [mapSet, mapLookup, hne]
  | cons hd tl ih =>
    obtain ⟨k0, v0⟩ := hd
    by_cases h : k0 = k
    · subst h
      simp [mapSet, mapLookup, hne]
    · simp [mapSet, h, mapLookup, ih]

theorem LoadWAV_hit {env : Env} {l : Loader} {id : AudioID} {a : Audio}
    (h : mapLookup l.wavs id = some a) : LoadWAV env l id = .ok a l [] := by
  unfold LoadWAV
  rw [h]

theorem LoadWAV_ok_cached {env : Env} {l : Loader} {id : AudioID} {a : Audio}
    {l' : Loader} {evs : List Event}
    (h : LoadWAV env l id = .ok a l' evs) : mapLookup l'.wavs id = some a := by
  unfold LoadWAV at h
  split at h
  · cases h
    assumption
  · split at h
    · cases h
    · dsimp only at h
      split at h
      · split at h <;> cases h
      · split at h
        · split at h
          · split at h <;> cases h
          · split at h
            · cases h
            · cases h
              exact mapLookup_mapSet_self ..
        · split at h
          · split at h <;> cases h
          · split at h
            · cases h
            · cases h
              exact mapLookup_mapSet_self ..

theorem LoadWAV_miss_ok_value {env : Env} {l : Loader} {id : AudioID}
    {info : AudioInfo} {a : Audio} {l' : Loader} {evs : List Event}
    (hmiss : mapLookup l.wavs id = none)
    (hreg : mapLookup l.audioRegistry id = some info)
    (h : LoadWAV env l id = .ok a l' evs) :
    a.volume = info.volume / 2 + 1/2 ∧ a.group = info.group ∧ a.id = id := by
  unfold LoadWAV at h
  rw [hmiss] at h
  rw [show getAudioInfo l id = .ok info by simp [getAudioInfo, hreg]] at h
  dsimp only at h
  split at h
  · split at h <;> cases h
  · split at h
    · split at h
      · split at h <;> cases h
      · split at h
        · cases h
        · cases h
          exact ⟨rfl, rfl, rfl⟩
    · split at h
      · split at h <;> cases h
      · split at h
        · cases h
        · cases h
          exact ⟨rfl, rfl, rfl⟩

/-- C8: loading any identifier with no registered metadata and no
cached resource panics with the unregistered-<kind> error naming the
kind and the id, with an empty trace: the Asset Opener is never
invoked. -/
theorem C8_unregistered_load_fails (env : Env) (l : Loader) (id : Int)
    (hau : mapLookup l.audioRegistry id = none)
    (hwav : mapLookup l.wavs id = none)
    (hfr : mapLookup l.fontRegistry id = none)
    (hfc : mapLookup l.fonts id = none)
    (hir : mapLookup l.imageRegistry id = none)
    (hic : mapLookup l.images id = none)
    (hsr : mapLookup l.shaderRegistry id = none)
    (hsc : mapLookup l.shaders id = none)
    (hrr : mapLookup l.rawRegistry id = none)
    (hrc : mapLookup l.raws id = none) :
    LoadAudio env l id =
        .panicked ("unregistered audio with id=" ++ toString id) l [] ∧
    LoadWAV env l id =
        .panicked ("unregistered audio with id=" ++ toString id) l [] ∧
    LoadFont env l id =
        .panicked ("unregistered font with id=" ++ toString id) l [] ∧
    LoadImage env l id =
        .panicked ("unregistered image with id=" ++ toString id) l [] ∧
    LoadShader env l id =
        .panicked ("unregistered shader with id=" ++ toString id) l [] ∧
    LoadRaw env l id =
        .panicked ("unregistered raw with id=" ++ toString id) l [] := by
  refine ⟨?_, ?_, ?_, ?_, ?_, ?_⟩
  · simp [LoadAudio, getAudioInfo, hau]
  · simp [LoadWAV, getAudioInfo, hau, hwav]
  · simp [LoadFont, hfr, hfc]
  · simp [LoadImage, hir, hic]
  · simp [LoadShader, hsr, hsc]
  · simp [LoadRaw, hrr, hrc]

/-- Witness for C8 at a concrete empty loader and id 7. -/
theorem C8_witness :
    LoadAudio demoEnv (NewLoader demoOpen) 7 =
        .panicked "unregistered audio with id=7" (NewLoader demoOpen) [] ∧
    LoadRaw demoEnv (NewLoader demoOpen) 7 =
        .panicked "unregistered raw with id=7" (NewLoader demoOpen) [] := by
  have h := C8_unregistered_load_fails demoEnv (NewLoader demoOpen) 7
    rfl rfl rfl rfl rfl rfl rfl rfl rfl rfl
  exact ⟨h.1, h.2.2.2.2.2⟩

/-- C9: the resolved volume of a constructed audio resource is
`(v/2)+0.5` of the metadata volume at load time: boundary values -1,
0, 1 map to 0, 1/2, 1; re-registering before the first load makes the
last metadata effective, and after the first load re-registering no
longer affects the cached resource. -/
theorem C9_volume_resolution :
    (∀ (p : Player) (id : AudioID) (info : AudioInfo),
        (createAudioObject p id info).volume = info.volume / 2 + 1/2) ∧
    ((createAudioObject (.fromBytes []) 0 { volume := -1 }).volume = 0 ∧
      (createAudioObject (.fromBytes []) 0 { volume := 0 }).volume = 1/2 ∧
      (createAudioObject (.fromBytes []) 0 { volume := 1 }).volume = 1) ∧
    (∀ (env : Env) (l : Loader) (id : AudioID) (m1 m2 : AudioInfo)
        (a : Audio) (l' : Loader) (evs : List Event),
        mapLookup l.wavs id = none →
        LoadWAV env
            { l with audioRegistry :=
                registrySet (registrySet l.audioRegistry id m1) id m2 } id =
          .ok a l' evs →
        a.volume = m2.volume / 2 + 1/2) ∧
    (∀ (env : Env) (l : Loader) (id : AudioID) (a : Audio) (l' : Loader)
        (evs : List Event) (m3 : AudioInfo),
        LoadWAV env l id = .ok a l' evs →
        LoadWAV env
            { l' with audioRegistry := registrySet l'.audioRegistry id m3 } id =
          .ok a { l' with audioRegistry := registrySet l'.audioRegistry id m3 }
            []) := by
  refine ⟨fun p id info => rfl,
    ⟨by norm_num [createAudioObject], by norm_num [createAudioObject],
      by norm_num [createAudioObject]⟩, ?_, ?_⟩
  · intro env l id m1 m2 a l' evs hmiss h
    have hmiss2 : mapLookup ({ l with audioRegistry := registrySet (registrySet l.audioRegistry id m1) id m2 } : Loader).wavs id = none := hmiss
    have hreg2 : mapLookup ({ l with audioRegistry := registrySet (registrySet l.audioRegistry id m1) id m2 } : Loader).audioRegistry id = some m2 := by
      simp [registrySet, mapLookup_mapSet_self]
    exact (LoadWAV_miss_ok_value hmiss2 hreg2 h).1
  · intro env l id a l' evs m3 h
    have hc0 : mapLookup l'.wavs id = some a := LoadWAV_ok_cached h
    have hcached : mapLookup ({ l' with audioRegistry := registrySet l'.audioRegistry id m3 } : Loader).wavs id = some a := hc0
    exact LoadWAV_hit hcached

/-- Witness for C9: double registration of id 4 with volumes 1 then
-1 resolves to volume (−1)/2 + 1/2 = 0, and a later re-registration
leaves the cached resource unchanged. -/
theorem C9_witness :
    (createAudioObject (.fromBytes [5]) 4
        { path := "d.wav", volume := -1 } : Audio).volume = 0 ∧
    LoadWAV demoEnv
        { NewLoader demoOpen with
          audioRegistry :=
            registrySet (registrySet (NewLoader demoOpen).audioRegistry 4
                { path := "d.wav", volume := 1 }) 4
              { path := "d.wav", volume := -1 } } 4 =
      .ok (createAudioObject (.fromBytes [5]) 4 { path := "d.wav", volume := -1 })
        demoWav2State demoWavEvs := by
  have h2 : LoadWAV demoEnv
      { NewLoader demoOpen with
        audioRegistry :=
          registrySet (registrySet (NewLoader demoOpen).audioRegistry 4
              { path := "d.wav", volume := 1 }) 4
            { path := "d.wav", volume := -1 } } 4 =
      .ok (createAudioObject (.fromBytes [5]) 4 { path := "d.wav", volume := -1 })
        demoWav2State demoWavEvs := rfl
  have hv := C9_volume_resolution.2.2.1 demoEnv (NewLoader demoOpen) 4
    { path := "d.wav", volume := 1 } { path := "d.wav", volume := -1 }
    _ _ _ rfl h2
  refine ⟨?_, h2⟩
  calc (createAudioObject (.fromBytes [5]) 4
      { path := "d.wav", volume := -1 } : Audio).volume
      = (-1 : ℚ) / 2 + 1/2 := hv
    _ = 0 := by norm_num

/-- C10: the read-only metadata accessors GetAudioInfo, GetFontInfo,
GetImageInfo and GetRawInfo never fail: for an unregistered id each
returns the zero-value metadata record (empty path, zero fields),
unlike Load which panics; and the loader declares no shader metadata
accessor. -/
theorem C10_info_accessors_total (l : Loader) (ida idf idi idr : Int)
    (ha : mapLookup l.audioRegistry ida = none)
    (hf : mapLookup l.fontRegistry idf = none)
    (hi : mapLookup l.imageRegistry idi = none)
    (hr : mapLookup l.rawRegistry idr = none) :
    GetAudioInfo l ida = {} ∧ GetFontInfo l idf = {} ∧
    GetImageInfo l idi = {} ∧ GetRawInfo l idr = {} ∧
    (({} : AudioInfo).path = "" ∧ ({} : AudioInfo).volume = 0 ∧
      ({} : FontInfo).path = "" ∧ ({} : ImageInfo).path = "" ∧
      ({} : RawInfo).path = "") ∧
    ResourceKind.shader ∉ loaderInfoAccessorKinds := by
  refine ⟨?_, ?_, ?_, ?_, ⟨rfl, rfl, rfl, rfl, rfl⟩, by decide⟩
  · simp [GetAudioInfo, ha]
  · simp [GetFontInfo, hf]
  · simp [GetImageInfo, hi]
  · simp [GetRawInfo, hr]

/-- Witness for C10 on the empty loader at id 0. -/
theorem C10_witness :
    GetAudioInfo (NewLoader demoOpen) 0 = {} ∧
    GetRawInfo (NewLoader demoOpen) 0 = {} ∧
    ResourceKind.shader ∉ loaderInfoAccessorKinds := by
  have h := C10_info_accessors_total (NewLoader demoOpen) 0 0 0 0 rfl rfl rfl rfl
  exact ⟨h.1, h.2.2.2.1, h.2.2.2.2.2⟩

theorem LoadRaw_hit {env : Env} {l : Loader} {id : RawID} {raw : Raw}
    (h : mapLookup l.raws id = some raw) : LoadRaw env l id = .ok raw l [] := by
  unfold LoadRaw
  rw [h]

theorem LoadRaw_ok_cached {env : Env} {l : Loader} {id : RawID} {raw : Raw}
    {l' : Loader} {evs : List Event}
    (h : LoadRaw env l id = .ok raw l' evs) : mapLookup l'.raws id = some raw := by
  unfold LoadRaw at h
  split at h
  · cases h
    assumption
  · split at h
    · cases h
    · dsimp only at h
      split at h
      · split at h <;> cases h
      · split at h
        · cases h
        · cases h
          exact mapLookup_mapSet_self ..

theorem LoadRaw_miss_ok_trace {env : Env} {l : Loader} {id : RawID} {raw : Raw}
    {l' : Loader} {evs : List Event}
    (h : LoadRaw env l id = .ok raw l' evs)
    (hmiss : mapLookup l.raws id = none) :
    ∃ p, evs = [.openAsset p, .readRaw id p, .closeAsset p] := by
  unfold LoadRaw at h
  split at h
  · next a heq =>
      rw [hmiss] at heq
      cases heq
  · split at h
    · cases h
    · dsimp only at h
      split at h
      · split at h <;> cases h
      · split at h
        · cases h
        · cases h
          exact ⟨_, rfl⟩

theorem LoadImage_hit {env : Env} {l : Loader} {id : ImageID} {img : Image}
    (h : mapLookup l.images id = some img) : LoadImage env l id = .ok img l [] := by
  unfold LoadImage
  rw [h]

theorem LoadImage_ok_cached {env : Env} {l : Loader} {id : ImageID} {img : Image}
    {l' : Loader} {evs : List Event}
    (h : LoadImage env l id = .ok img l' evs) :
    mapLookup l'.images id = some img := by
  unfold LoadImage at h
  split at h
  · cases h
    assumption
  · split at h
    · cases h
    · dsimp only at h
      split at h
      · split at h <;> cases h
      · split at h
        · cases h
        · cases h
          exact mapLookup_mapSet_self ..

theorem LoadImage_miss_ok_trace {env : Env} {l : Loader} {id : ImageID}
    {img : Image} {l' : Loader} {evs : List Event}
    (h : LoadImage env l id = .ok img l' evs)
    (hmiss : mapLookup l.images id = none) :
    ∃ p, evs = [.openAsset p, .decodeImage id p, .closeAsset p] := by
  unfold LoadImage at h
  split at h
  · next a heq =>
      rw [hmiss] at heq
      cases heq
  · split at h
    · cases h
    · dsimp only at h
      split at h
      · split at h <;> cases h
      · split at h
        · cases h
        · cases h
          exact ⟨_, rfl⟩

theorem LoadOGG_miss_ok_player {env : Env} {l : Loader} {id : AudioID}
    {info : AudioInfo} {a : Audio} {l' : Loader} {evs : List Event}
    (hmiss : mapLookup l.oggs id = none)
    (hreg : mapLookup l.audioRegistry id = some info)
    (h : LoadOGG env l id = .ok a l' evs) :
    a.player = some (.fromStream
      (maybeWrapAudioStream
        (AStream.oggDecoded (l.openAssetFunc info.path).data) info)) ∧
    evs = [.openAsset info.path, .decodeOgg id info.path] := by
  unfold LoadOGG at h
  rw [hmiss] at h
  rw [show getAudioInfo l id = .ok info by simp [getAudioInfo, hreg]] at h
  dsimp only at h
  split at h
  · cases h
  · split at h
    · cases h
    · cases h
      exact ⟨rfl, rfl⟩

/-- C2 counterexample: audio id 2 is registered at "b.ogg" with no
stream decorator; `LoadAudio` routes to `LoadOGG` and the player is
constructed directly from the decoded vorbis stream — not from an
infinite-loop wrapper, contradicting the claimed default looping. -/
theorem C2_counterexample :
    LoadAudio demoEnv demoOggLoader 2 =
        .ok demoOggValue demoOggState
          [.openAsset "b.ogg", .decodeOgg 2 "b.ogg"] ∧
    demoOggValue.player = some (.fromStream (AStream.oggDecoded [5])) ∧
    AStream.isLoop (AStream.oggDecoded [5]) = false :=
  ⟨rfl, rfl, rfl⟩

/-- C2 amended: a `.ogg` path routes `LoadAudio` to `LoadOGG`, but no
implicit loop-wrapping exists: with no decoration function the player
is built from the decoded vorbis stream unchanged, and with one the
decorator alone is applied (the library's `LoopOGG` decorator is the
explicit way to reinstate looping). -/
theorem C2_ogg_no_default_loop (env : Env) (l : Loader) (id : AudioID)
    (info : AudioInfo) (a : Audio) (l' : Loader) (evs : List Event)
    (hreg : mapLookup l.audioRegistry id = some info) :
    (goHasSuffix info.path ".ogg" = true → LoadAudio env l id = LoadOGG env l id) ∧
    (mapLookup l.oggs id = none → LoadOGG env l id = .ok a l' evs →
      (info.streamDecorator = none →
        a.player =
          some (.fromStream
            (AStream.oggDecoded (l.openAssetFunc info.path).data))) ∧
      (∀ d, info.streamDecorator = some d →
        a.player =
          some (.fromStream
            (d (AStream.oggDecoded (l.openAssetFunc info.path).data))))) ∧
    (∀ s, LoopOGG s = AStream.infiniteLoop s) := by
  refine ⟨?_, ?_, fun s => rfl⟩
  · intro hsuf
    simp [LoadAudio, getAudioInfo, hreg, hsuf]
  · intro hmiss h
    have hp := (LoadOGG_miss_ok_player hmiss hreg h).1
    constructor
    · intro hdec
      rw [hp]
      simp [maybeWrapAudioStream, hdec]
    · intro d hdec
      rw [hp]
      simp [maybeWrapAudioStream, hdec]

/-- Witness for C2's amended theorem: id 5 at "e.ogg" with the
`LoopOGG` decorator produces a player over the explicitly looped
stream. -/
theorem C2_witness :
    LoadOGG demoEnv demoOggLoopLoader 5 =
        .ok demoOggLoopValue demoOggLoopState
          [.openAsset "e.ogg", .decodeOgg 5 "e.ogg"] ∧
    demoOggLoopValue.player =
      some (.fromStream (AStream.infiniteLoop (AStream.oggDecoded [5]))) := by
  have h0 : LoadOGG demoEnv demoOggLoopLoader 5 =
      .ok demoOggLoopValue demoOggLoopState
        [.openAsset "e.ogg", .decodeOgg 5 "e.ogg"] := rfl
  have h := C2_ogg_no_default_loop demoEnv demoOggLoopLoader 5 demoOggLoopInfo
    demoOggLoopValue demoOggLoopState [.openAsset "e.ogg", .decodeOgg 5 "e.ogg"]
    rfl
  exact ⟨h0, (h.2.1 rfl h0).2 LoopOGG rfl⟩

theorem LoadWAV_miss_ok_playerShape {env : Env} {l : Loader} {id : AudioID}
    {info : AudioInfo} {a : Audio} {l' : Loader} {evs : List Event}
    (hmiss : mapLookup l.wavs id = none)
    (hreg : mapLookup l.audioRegistry id = some info)
    (h : LoadWAV env l id = .ok a l' evs) :
    ∃ pcm, env.wavDecode (l.openAssetFunc info.path).data = .ok pcm ∧
      ((info.streamDecorator = none ∧ a.player = some (.fromBytes pcm)) ∨
        (∃ d, info.streamDecorator = some d ∧
          a.player = some (.fromStream (d (AStream.wavDecoded pcm))))) := by
  unfold LoadWAV at h
  rw [hmiss] at h
  rw [show getAudioInfo l id = .ok info by simp [getAudioInfo, hreg]] at h
  dsimp only at h
  split at h
  · split at h <;> cases h
  · next pcm hdec =>
    refine ⟨pcm, hdec, ?_⟩
    split at h
    · split at h
      · split at h <;> cases h
      · split at h
        · cases h
        · cases h
          exact Or.inl ⟨by assumption, rfl⟩
    · split at h
      · split at h <;> cases h
      · split at h
        · cases h
        · cases h
          exact Or.inr ⟨_, by assumption, rfl⟩

/-- C5: on first load of a `.wav` path, `LoadAudio` routes to
`LoadWAV`; with no stream decorator the decoded PCM is fully read
into memory and the player is built from those bytes
(`NewPlayerFromBytes`); with a decorator, materialization is skipped
and the player is built from the decorated raw stream. -/
theorem C5_wav_materialization (env : Env) (l : Loader) (id : AudioID)
    (info : AudioInfo) (a : Audio) (l' : Loader) (evs : List Event)
    (hreg : mapLookup l.audioRegistry id = some info)
    (hmiss : mapLookup l.wavs id = none)
    (h : LoadWAV env l id = .ok a l' evs) :
    (goHasSuffix info.path ".wav" = true → goHasSuffix info.path ".ogg" = false →
      LoadAudio env l id = LoadWAV env l id) ∧
    ∃ pcm, env.wavDecode (l.openAssetFunc info.path).data = .ok pcm ∧
      (info.streamDecorator = none → a.player = some (.fromBytes pcm)) ∧
      (∀ d, info.streamDecorator = some d →
        a.player = some (.fromStream (d (AStream.wavDecoded pcm)))) := by
  constructor
  · intro hwav hogg
    simp [LoadAudio, getAudioInfo, hreg, hwav, hogg]
  · obtain ⟨pcm, hdec, hsh⟩ := LoadWAV_miss_ok_playerShape hmiss hreg h
    refine ⟨pcm, hdec, ?_, ?_⟩
    · intro hnone
      rcases hsh with ⟨_, hp⟩ | ⟨d, hd, _⟩
      · exact hp
      · rw [hnone] at hd
        cases hd
    · intro d hd
      rcases hsh with ⟨hnone, _⟩ | ⟨d0, hd0, hp⟩
      · rw [hd] at hnone
        cases hnone
      · rw [hd] at hd0
        cases hd0
        exact hp

/-- Witness for C5: id 4 ("d.wav", no decorator) materializes to a
byte player; id 6 ("f.wav", `NopDecorator`) keeps the raw stream. -/
theorem C5_witness :
    LoadWAV demoEnv demoWavLoader 4 = .ok demoWavValue demoWavState demoWavEvs ∧
    demoWavValue.player = some (.fromBytes [5]) ∧
    LoadWAV demoEnv demoWavNopLoader 6 =
      .ok demoWavNopValue demoWavNopState
        [.openAsset "f.wav", .decodeWav 6 "f.wav", .closeAsset "f.wav"] ∧
    demoWavNopValue.player =
      some (.fromStream (NopDecorator (AStream.wavDecoded [5]))) := by
  have h1 : LoadWAV demoEnv demoWavLoader 4 =
      .ok demoWavValue demoWavState demoWavEvs := rfl
  have h2 : LoadWAV demoEnv demoWavNopLoader 6 =
      .ok demoWavNopValue demoWavNopState
        [.openAsset "f.wav", .decodeWav 6 "f.wav", .closeAsset "f.wav"] := rfl
  have c1 := C5_wav_materialization demoEnv demoWavLoader 4 { path := "d.wav" }
    demoWavValue demoWavState demoWavEvs rfl rfl h1
  have c2 := C5_wav_materialization demoEnv demoWavNopLoader 6 demoWavNopInfo
    demoWavNopValue demoWavNopState
    [.openAsset "f.wav", .decodeWav 6 "f.wav", .closeAsset "f.wav"] rfl rfl h2
  obtain ⟨pcm, hdec, hn, -⟩ := c1.2
  obtain ⟨pcm2, hdec2, -, hd⟩ := c2.2
  have hpcm : pcm = [5] := by
    have he : (Except.ok [5] : Except String Bytes) = .ok pcm := hdec
    cases he
    rfl
  have hpcm2 : pcm2 = [5] := by
    have he : (Except.ok [5] : Except String Bytes) = .ok pcm2 := hdec2
    cases he
    rfl
  subst hpcm
  subst hpcm2
  exact ⟨h1, hn rfl, h2, hd NopDecorator rfl⟩

theorem mapLookup_some_length_pos {α : Type} {m : List (Int × α)} {k : Int}
    {v : α} (h : mapLookup m k = some v) : m.length ≠ 0 := by
  cases m with
  | nil => cases h
  | cons hd tl => simp

/-- C6: for a registered audio path ending in neither ".ogg" nor
".wav", when there is no way to produce a custom resource — no custom
loader and nothing cached, or an installed loader that declines — the
load panics with the unrecognized-format error naming the path, and
the loader state is unchanged: nothing is stored in any table. -/
theorem C6_unrecognized_format (env : Env) (l : Loader) (id : AudioID)
    (info : AudioInfo)
    (hreg : mapLookup l.audioRegistry id = some info)
    (hogg : goHasSuffix info.path ".ogg" = false)
    (hwav : goHasSuffix info.path ".wav" = false) :
    (l.customAudio = [] → l.customAudioLoader = none →
      LoadAudio env l id =
        .panicked ("load \"" ++ info.path ++ "\" audio: unrecognized format")
          l []) ∧
    (∀ f, l.customAudioLoader = some f →
      mapLookup l.customAudio id = none →
      f (l.openAssetFunc info.path).data info = none →
      (l.openAssetFunc info.path).closeErr = none →
      LoadAudio env l id =
        .panicked ("load \"" ++ info.path ++ "\" audio: unrecognized format")
          l [.openAsset info.path, .decodeCustom id info.path,
            .closeAsset info.path]) := by
  constructor
  · intro hempty hnone
    simp [LoadAudio, getAudioInfo, hreg, hogg, hwav, hempty, hnone]
  · intro f hf hmiss hdecline hclose
    simp [LoadAudio, getAudioInfo, hreg, hogg, hwav, hf, loadCustomAudio,
      hmiss, hdecline, hclose]

/-- Witness for C6: id 3 at "c.mp3" with no custom loader installed. -/
theorem C6_witness :
    LoadAudio demoEnv demoMp3Loader 3 =
      .panicked "load \"c.mp3\" audio: unrecognized format" demoMp3Loader [] := by
  have h := (C6_unrecognized_format demoEnv demoMp3Loader 3 { path := "c.mp3" }
    rfl rfl rfl).1 rfl rfl
  exact h

/-- C7: once a custom-format resource is cached for an id, LoadAudio
returns it with an empty trace for any later value of the custom
loader hook, including nil: the cached object, not the hook,
persists, and the hook is not invoked again. -/
theorem C7_custom_persistence (env : Env) (l : Loader) (id : AudioID)
    (info : AudioInfo) (a : Audio)
    (hreg : mapLookup l.audioRegistry id = some info)
    (hogg : goHasSuffix info.path ".ogg" = false)
    (hwav : goHasSuffix info.path ".wav" = false)
    (hcache : mapLookup l.customAudio id = some a) :
    ∀ f, LoadAudio env { l with customAudioLoader := f } id =
      .ok a { l with customAudioLoader := f } [] := by
  intro f
  have hlen := mapLookup_some_length_pos hcache
  simp [LoadAudio, getAudioInfo, hreg, hogg, hwav, loadCustomAudio, hcache,
    hlen]

/-- Witness for C7: the custom resource for id 8 stays reachable with
the custom loader hook cleared. -/
theorem C7_witness :
    LoadAudio demoEnv { demoXmLoader with customAudioLoader := none } 8 =
      .ok demoXmValue { demoXmLoader with customAudioLoader := none } [] :=
  C7_custom_persistence demoEnv demoXmLoader 8 demoXmInfo demoXmValue
    rfl rfl rfl rfl none

theorem LoadWAV_events_shape (env : Env) (l : Loader) (id : AudioID) :
    (LoadWAV env l id).events = [] ∨
    ∃ p, (LoadWAV env l id).events =
      [.openAsset p, .decodeWav id p, .closeAsset p] := by
  unfold LoadWAV
  split
  · exact Or.inl rfl
  · split
    · exact Or.inl rfl
    · dsimp only
      split
      · split <;> exact Or.inr ⟨_, rfl⟩
      · split
        · split
          · split <;> exact Or.inr ⟨_, rfl⟩
          · split <;> exact Or.inr ⟨_, rfl⟩
        · split
          · split <;> exact Or.inr ⟨_, rfl⟩
          · split <;> exact Or.inr ⟨_, rfl⟩

theorem LoadOGG_events_shape (env : Env) (l : Loader) (id : AudioID) :
    (LoadOGG env l id).events = [] ∨
    ∃ p, (LoadOGG env l id).events = [.openAsset p, .decodeOgg id p] := by
  unfold LoadOGG
  split
  · exact Or.inl rfl
  · split
    · exact Or.inl rfl
    · dsimp only
      split
      · exact Or.inr ⟨_, rfl⟩
      · split
        · exact Or.inr ⟨_, rfl⟩
        · exact Or.inr ⟨_, rfl⟩

theorem loadCustomAudio_events_shape (env : Env) (l : Loader) (id : AudioID)
    (info : AudioInfo) :
    (loadCustomAudio env l id info).events = [] ∨
    ∃ p, (loadCustomAudio env l id info).events =
      [.openAsset p, .decodeCustom id p, .closeAsset p] := by
  unfold loadCustomAudio
  split
  · exact Or.inl rfl
  · split
    · exact Or.inl rfl
    · dsimp only
      split
      · split <;> exact Or.inr ⟨_, rfl⟩
      · split
        · split <;> exact Or.inr ⟨_, rfl⟩
        · split <;> exact Or.inr ⟨_, rfl⟩

theorem LoadRaw_events_shape (env : Env) (l : Loader) (id : RawID) :
    (LoadRaw env l id).events = [] ∨
    ∃ p, (LoadRaw env l id).events =
      [.openAsset p, .readRaw id p, .closeAsset p] := by
  unfold LoadRaw
  split
  · exact Or.inl rfl
  · split
    · exact Or.inl rfl
    · dsimp only
      split
      · split <;> exact Or.inr ⟨_, rfl⟩
      · split <;> exact Or.inr ⟨_, rfl⟩

theorem LoadShader_events_shape (env : Env) (l : Loader) (id : ShaderID) :
    (LoadShader env l id).events = [] ∨
    ∃ p, (LoadShader env l id).events =
      [.openAsset p, .readShader id p, .closeAsset p] := by
  unfold LoadShader
  split
  · exact Or.inl rfl
  · split
    · exact Or.inl rfl
    · dsimp only
      split
      · split <;> exact Or.inr ⟨_, rfl⟩
      · split
        · split <;> exact Or.inr ⟨_, rfl⟩
        · split <;> exact Or.inr ⟨_, rfl⟩

theorem LoadFont_events_shape (env : Env) (l : Loader) (id : FontID) :
    (LoadFont env l id).events = [] ∨
    ∃ p, (LoadFont env l id).events =
      [.openAsset p, .readFont id p, .closeAsset p] := by
  unfold LoadFont
  split
  · exact Or.inl rfl
  · split
    · exact Or.inl rfl
    · dsimp only
      split
      · split <;> exact Or.inr ⟨_, rfl⟩
      · split
        · split <;> exact Or.inr ⟨_, rfl⟩
        · split
          · split <;> exact Or.inr ⟨_, rfl⟩
          · split <;> exact Or.inr ⟨_, rfl⟩

theorem LoadImage_events_shape (env : Env) (l : Loader) (id : ImageID) :
    (LoadImage env l id).events = [] ∨
    ∃ p, (LoadImage env l id).events =
      [.openAsset p, .decodeImage id p, .closeAsset p] := by
  unfold LoadImage
  split
  · exact Or.inl rfl
  · split
    · exact Or.inl rfl
    · dsimp only
      split
      · split <;> exact Or.inr ⟨_, rfl⟩
      · split <;> exact Or.inr ⟨_, rfl⟩

/-- C3 counterexample: a successful `LoadOGG` (id 9 at "h.ogg") opens
the asset but never closes it — the success exit path of the OGG
loader leaves the opener's stream open, contradicting the claimed
close-on-every-exit-path for every resource kind. -/
theorem C3_counterexample :
    LoadOGG demoEnv demoOgg9Loader 9 =
        .ok demoOgg9Value demoOgg9State
          [.openAsset "h.ogg", .decodeOgg 9 "h.ogg"] ∧
    ([.openAsset "h.ogg", .decodeOgg 9 "h.ogg"] : List Event).countP
        Event.isOpen = 1 ∧
    ([.openAsset "h.ogg", .decodeOgg 9 "h.ogg"] : List Event).countP
        Event.isClose = 0 :=
  ⟨rfl, by decide, by decide⟩

/-- C3 amended: every loader except `LoadOGG` closes what it opens on
every exit path (the trace has as many closes as opens in every
outcome), and a close failure is itself fatal, reported with the
distinct `closing` message; `LoadOGG` deliberately never closes its
reader, which must stay open to back the player. -/
theorem C3_close_discipline :
    (∀ (env : Env) (l : Loader) (id : AudioID),
        (LoadWAV env l id).events.countP Event.isClose =
          (LoadWAV env l id).events.countP Event.isOpen) ∧
    (∀ (env : Env) (l : Loader) (id : AudioID) (info : AudioInfo),
        (loadCustomAudio env l id info).events.countP Event.isClose =
          (loadCustomAudio env l id info).events.countP Event.isOpen) ∧
    (∀ (env : Env) (l : Loader) (id : FontID),
        (LoadFont env l id).events.countP Event.isClose =
          (LoadFont env l id).events.countP Event.isOpen) ∧
    (∀ (env : Env) (l : Loader) (id : ImageID),
        (LoadImage env l id).events.countP Event.isClose =
          (LoadImage env l id).events.countP Event.isOpen) ∧
    (∀ (env : Env) (l : Loader) (id : ShaderID),
        (LoadShader env l id).events.countP Event.isClose =
          (LoadShader env l id).events.countP Event.isOpen) ∧
    (∀ (env : Env) (l : Loader) (id : RawID),
        (LoadRaw env l id).events.countP Event.isClose =
          (LoadRaw env l id).events.countP Event.isOpen) ∧
    (∀ (env : Env) (l : Loader) (id : AudioID),
        (LoadOGG env l id).events.countP Event.isClose = 0) ∧
    (∀ (env : Env) (l : Loader) (id : RawID) (info : RawInfo) (ce : String),
        mapLookup l.raws id = none →
        mapLookup l.rawRegistry id = some info →
        (l.openAssetFunc info.path).closeErr = some ce →
        ∃ st, LoadRaw env l id =
          .panicked ("closing \"" ++ info.path ++ "\" raw reader: " ++ ce) st
            [.openAsset info.path, .readRaw id info.path,
              .closeAsset info.path]) := by
  refine ⟨?_, ?_, ?_, ?_, ?_, ?_, ?_, ?_⟩
  · intro env l id
    rcases LoadWAV_events_shape env l id with h | ⟨p, h⟩ <;>
      simp [h, List.countP_cons, Event.isOpen, Event.isClose]
  · intro env l id info
    rcases loadCustomAudio_events_shape env l id info with h | ⟨p, h⟩ <;>
      simp [h, List.countP_cons, Event.isOpen, Event.isClose]
  · intro env l id
    rcases LoadFont_events_shape env l id with h | ⟨p, h⟩ <;>
      simp [h, List.countP_cons, Event.isOpen, Event.isClose]
  · intro env l id
    rcases LoadImage_events_shape env l id with h | ⟨p, h⟩ <;>
      simp [h, List.countP_cons, Event.isOpen, Event.isClose]
  · intro env l id
    rcases LoadShader_events_shape env l id with h | ⟨p, h⟩ <;>
      simp [h, List.countP_cons, Event.isOpen, Event.isClose]
  · intro env l id
    rcases LoadRaw_events_shape env l id with h | ⟨p, h⟩ <;>
      simp [h, List.countP_cons, Event.isOpen, Event.isClose]
  · intro env l id
    rcases LoadOGG_events_shape env l id with h | ⟨p, h⟩ <;>
      simp [h, List.countP_cons, Event.isClose]
  · intro env l id info ce hmiss hreg hce
    unfold LoadRaw
    rw [hmiss, hreg]
    dsimp only
    split
    · rw [hce]
      exact ⟨l, rfl⟩
    · rw [hce]
      exact ⟨_, rfl⟩

/-- Witness for C3's amended theorem: the failing-close opener makes
`LoadRaw 1` panic with the distinct closing error. -/
theorem C3_witness :
    ∃ st, LoadRaw demoEnv demoBadRawLoader 1 =
      .panicked "closing \"a.json\" raw reader: boom" st
        [.openAsset "a.json", .readRaw 1 "a.json", .closeAsset "a.json"] := by
  have h := C3_close_discipline.2.2.2.2.2.2.2 demoEnv demoBadRawLoader 1
    { path := "a.json" } "boom" rfl rfl rfl
  exact h

theorem mapLookup_mapSet_isSome {α : Type} {m : List (Int × α)} {i j : Int}
    {v : α} (h : (mapLookup m i).isSome) :
    (mapLookup (mapSet m j v) i).isSome := by
  by_cases hij : j = i
  · subst hij
    simp [mapLookup_mapSet_self]
  · rw [mapLookup_mapSet_ne _ _ _ _ hij]
    exact h

theorem DecodeOnceStep_nil {l l' : Loader} (hw : l'.wavs = l.wavs)
    (ho : l'.oggs = l.oggs) (hc : l'.customAudio = l.customAudio) :
    DecodeOnceStep l l' [] := by
  intro id
  refine ⟨⟨by simp, by simp, ?_⟩, ⟨by simp, by simp, ?_⟩, ⟨by simp, by simp, ?_⟩⟩
  · rw [hw]
    exact fun h => h
  · rw [ho]
    exact fun h => h
  · rw [hc]
    exact fun h => h

theorem DecodeOncePanic_nil (l : Loader) : DecodeOncePanic l [] := by
  intro id
  exact ⟨⟨by simp, by simp⟩, ⟨by simp, by simp⟩, ⟨by simp, by simp⟩⟩

theorem DecodeOnceStep_wavStore {l : Loader} {j : AudioID} {a : Audio}
    (p : String) (hmiss : mapLookup l.wavs j = none) :
    DecodeOnceStep l { l with wavs := mapSet l.wavs j a }
      [.openAsset p, .decodeWav j p, .closeAsset p] := by
  intro id
  by_cases hj : j = id
  · subst hj
    refine ⟨⟨?_, ?_, ?_⟩, ⟨?_, ?_, ?_⟩, ⟨?_, ?_, ?_⟩⟩
    · simp [List.countP_cons, Event.isWavDecodeFor]
    · intro _
      exact ⟨hmiss, by simp [mapLookup_mapSet_self]⟩
    · intro hs
      rw [hmiss] at hs
      cases hs
    · simp [List.countP_cons, Event.isOggDecodeFor]
    · intro hc
      simp [List.countP_cons, Event.isOggDecodeFor] at hc
    · exact fun h => h
    · simp [List.countP_cons, Event.isCustomDecodeFor]
    · intro hc
      simp [List.countP_cons, Event.isCustomDecodeFor] at hc
    · exact fun h => h
  · refine ⟨⟨?_, ?_, ?_⟩, ⟨?_, ?_, ?_⟩, ⟨?_, ?_, ?_⟩⟩
    · simp [List.countP_cons, Event.isWavDecodeFor, beq_iff_eq, hj]
    · intro hc
      simp [List.countP_cons, Event.isWavDecodeFor, beq_iff_eq, hj] at hc
    · exact fun h => mapLookup_mapSet_isSome h
    · simp [List.countP_cons, Event.isOggDecodeFor]
    · intro hc
      simp [List.countP_cons, Event.isOggDecodeFor] at hc
    · exact fun h => h
    · simp [List.countP_cons, Event.isCustomDecodeFor]
    · intro hc
      simp [List.countP_cons, Event.isCustomDecodeFor] at hc
    · exact fun h => h

theorem DecodeOncePanic_wav {l : Loader} {j : AudioID} (p : String)
    (hmiss : mapLookup l.wavs j = none) :
    DecodeOncePanic l [.openAsset p, .decodeWav j p, .closeAsset p] := by
  intro id
  by_cases hj : j = id
  · subst hj
    refine ⟨⟨?_, fun _ => hmiss⟩, ⟨?_, ?_⟩, ⟨?_, ?_⟩⟩
    · simp [List.countP_cons, Event.isWavDecodeFor]
    · simp [List.countP_cons, Event.isOggDecodeFor]
    · intro hc
      simp [List.countP_cons, Event.isOggDecodeFor] at hc
    · simp [List.countP_cons, Event.isCustomDecodeFor]
    · intro hc
      simp [List.countP_cons, Event.isCustomDecodeFor] at hc
  · refine ⟨⟨?_, ?_⟩, ⟨?_, ?_⟩, ⟨?_, ?_⟩⟩
    · simp [List.countP_cons, Event.isWavDecodeFor, beq_iff_eq, hj]
    · intro hc
      simp [List.countP_cons, Event.isWavDecodeFor, beq_iff_eq, hj] at hc
    · simp [List.countP_cons, Event.isOggDecodeFor]
    · intro hc
      simp [List.countP_cons, Event.isOggDecodeFor] at hc
    · simp [List.countP_cons, Event.isCustomDecodeFor]
    · intro hc
      simp [List.countP_cons, Event.isCustomDecodeFor] at hc

theorem DecodeOnceStep_oggStore {l : Loader} {j : AudioID} {a : Audio}
    (p : String) (hmiss : mapLookup l.oggs j = none) :
    DecodeOnceStep l { l with oggs := mapSet l.oggs j a }
      [.openAsset p, .decodeOgg j p] := by
  intro id
  by_cases hj : j = id
  · subst hj
    refine ⟨⟨?_, ?_, ?_⟩, ⟨?_, ?_, ?_⟩, ⟨?_, ?_, ?_⟩⟩
    · simp [List.countP_cons, Event.isWavDecodeFor]
    · intro hc
      simp [List.countP_cons, Event.isWavDecodeFor] at hc
    · exact fun h => h
    · simp [List.countP_cons, Event.isOggDecodeFor]
    · intro _
      exact ⟨hmiss, by simp [mapLookup_mapSet_self]⟩
    · intro hs
      rw [hmiss] at hs
      cases hs
    · simp [List.countP_cons, Event.isCustomDecodeFor]
    · intro hc
      simp [List.countP_cons, Event.isCustomDecodeFor] at hc
    · exact fun h => h
  · refine ⟨⟨?_, ?_, ?_⟩, ⟨?_, ?_, ?_⟩, ⟨?_, ?_, ?_⟩⟩
    · simp [List.countP_cons, Event.isWavDecodeFor]
    · intro hc
      simp [List.countP_cons, Event.isWavDecodeFor] at hc
    · exact fun h => h
    · simp [List.countP_cons, Event.isOggDecodeFor, beq_iff_eq, hj]
    · intro hc
      simp [List.countP_cons, Event.isOggDecodeFor, beq_iff_eq, hj] at hc
    · exact fun h => mapLookup_mapSet_isSome h
    · simp [List.countP_cons, Event.isCustomDecodeFor]
    · intro hc
      simp [List.countP_cons, Event.isCustomDecodeFor] at hc
    · exact fun h => h

theorem DecodeOncePanic_ogg {l : Loader} {j : AudioID} (p : String)
    (hmiss : mapLookup l.oggs j = none) :
    DecodeOncePanic l [.openAsset p, .decodeOgg j p] := by
  intro id
  by_cases hj : j = id
  · subst hj
    refine ⟨⟨?_, ?_⟩, ⟨?_, fun _ => hmiss⟩, ⟨?_, ?_⟩⟩
    · simp [List.countP_cons, Event.isWavDecodeFor]
    · intro hc
      simp [List.countP_cons, Event.isWavDecodeFor] at hc
    · simp [List.countP_cons, Event.isOggDecodeFor]
    · simp [List.countP_cons, Event.isCustomDecodeFor]
    · intro hc
      simp [List.countP_cons, Event.isCustomDecodeFor] at hc
  · refine ⟨⟨?_, ?_⟩, ⟨?_, ?_⟩, ⟨?_, ?_⟩⟩
    · simp [List.countP_cons, Event.isWavDecodeFor]
    · intro hc
      simp [List.countP_cons, Event.isWavDecodeFor] at hc
    · simp [List.countP_cons, Event.isOggDecodeFor, beq_iff_eq, hj]
    · intro hc
      simp [List.countP_cons, Event.isOggDecodeFor, beq_iff_eq, hj] at hc
    · simp [List.countP_cons, Event.isCustomDecodeFor]
    · intro hc
      simp [List.countP_cons, Event.isCustomDecodeFor] at hc

theorem DecodeOnceStep_customStore {l : Loader} {j : AudioID} {a : Audio}
    (p : String) (hmiss : mapLookup l.customAudio j = none) :
    DecodeOnceStep l { l with customAudio := mapSet l.customAudio j a }
      [.openAsset p, .decodeCustom j p, .closeAsset p] := by
  intro id
  by_cases hj : j = id
  · subst hj
    refine ⟨⟨?_, ?_, ?_⟩, ⟨?_, ?_, ?_⟩, ⟨?_, ?_, ?_⟩⟩
    · simp [List.countP_cons, Event.isWavDecodeFor]
    · intro hc
      simp [List.countP_cons, Event.isWavDecodeFor] at hc
    · exact fun h => h
    · simp [List.countP_cons, Event.isOggDecodeFor]
    · intro hc
      simp [List.countP_cons, Event.isOggDecodeFor] at hc
    · exact fun h => h
    · simp [List.countP_cons, Event.isCustomDecodeFor]
    · intro _
      exact ⟨hmiss, by simp [mapLookup_mapSet_self]⟩
    · intro hs
      rw [hmiss] at hs
      cases hs
  · refine ⟨⟨?_, ?_, ?_⟩, ⟨?_, ?_, ?_⟩, ⟨?_, ?_, ?_⟩⟩
    · simp [List.countP_cons, Event.isWavDecodeFor]
    · intro hc
      simp [List.countP_cons, Event.isWavDecodeFor] at hc
    · exact fun h => h
    · simp [List.countP_cons, Event.isOggDecodeFor]
    · intro hc
      simp [List.countP_cons, Event.isOggDecodeFor] at hc
    · exact fun h => h
    · simp [List.countP_cons, Event.isCustomDecodeFor, beq_iff_eq, hj]
    · intro hc
      simp [List.countP_cons, Event.isCustomDecodeFor, beq_iff_eq, hj] at hc
    · exact fun h => mapLookup_mapSet_isSome h

theorem DecodeOncePanic_custom {l : Loader} {j : AudioID} (p : String)
    (hmiss : mapLookup l.customAudio j = none) :
    DecodeOncePanic l [.openAsset p, .decodeCustom j p, .closeAsset p] := by
  intro id
  by_cases hj : j = id
  · subst hj
    refine ⟨⟨?_, ?_⟩, ⟨?_, ?_⟩, ⟨?_, fun _ => hmiss⟩⟩
    · simp [List.countP_cons, Event.isWavDecodeFor]
    · intro hc
      simp [List.countP_cons, Event.isWavDecodeFor] at hc
    · simp [List.countP_cons, Event.isOggDecodeFor]
    · intro hc
      simp [List.countP_cons, Event.isOggDecodeFor] at hc
    · simp [List.countP_cons, Event.isCustomDecodeFor]
  · refine ⟨⟨?_, ?_⟩, ⟨?_, ?_⟩, ⟨?_, ?_⟩⟩
    · simp [List.countP_cons, Event.isWavDecodeFor]
    · intro hc
      simp [List.countP_cons, Event.isWavDecodeFor] at hc
    · simp [List.countP_cons, Event.isOggDecodeFor]
    · intro hc
      simp [List.countP_cons, Event.isOggDecodeFor] at hc
    · simp [List.countP_cons, Event.isCustomDecodeFor, beq_iff_eq, hj]
    · intro hc
      simp [List.countP_cons, Event.isCustomDecodeFor, beq_iff_eq, hj] at hc

theorem LoadWAV_step_ok {env : Env} {l : Loader} {j : AudioID} {a : Audio}
    {l' : Loader} {evs : List Event}
    (h : LoadWAV env l j = .ok a l' evs) : DecodeOnceStep l l' evs := by
  unfold LoadWAV at h
  split at h
  · cases h
    exact DecodeOnceStep_nil rfl rfl rfl
  · split at h
    · cases h
    · dsimp only at h
      split at h
      · split at h <;> cases h
      · split at h
        · split at h
          · split at h <;> cases h
          · split at h
            · cases h
            · cases h
              exact DecodeOnceStep_wavStore _ (by assumption)
        · split at h
          · split at h <;> cases h
          · split at h
            · cases h
            · cases h
              exact DecodeOnceStep_wavStore _ (by assumption)

theorem LoadWAV_step_panic {env : Env} {l : Loader} {j : AudioID} {m : String}
    {l' : Loader} {evs : List Event}
    (h : LoadWAV env l j = .panicked m l' evs) : DecodeOncePanic l evs := by
  unfold LoadWAV at h
  split at h
  · cases h
  · split at h
    · cases h
      exact DecodeOncePanic_nil l
    · dsimp only at h
      split at h
      · split at h <;> (cases h; exact DecodeOncePanic_wav _ (by assumption))
      · split at h
        · split at h
          · split at h <;> (cases h; exact DecodeOncePanic_wav _ (by assumption))
          · split at h
            · cases h
              exact DecodeOncePanic_wav _ (by assumption)
            · cases h
        · split at h
          · split at h <;> (cases h; exact DecodeOncePanic_wav _ (by assumption))
          · split at h
            · cases h
              exact DecodeOncePanic_wav _ (by assumption)
            · cases h

theorem LoadOGG_step_ok {env : Env} {l : Loader} {j : AudioID} {a : Audio}
    {l' : Loader} {evs : List Event}
    (h : LoadOGG env l j = .ok a l' evs) : DecodeOnceStep l l' evs := by
  unfold LoadOGG at h
  split at h
  · cases h
    exact DecodeOnceStep_nil rfl rfl rfl
  · split at h
    · cases h
    · dsimp only at h
      split at h
      · cases h
      · split at h
        · cases h
        · cases h
          exact DecodeOnceStep_oggStore _ (by assumption)

theorem LoadOGG_step_panic {env : Env} {l : Loader} {j : AudioID} {m : String}
    {l' : Loader} {evs : List Event}
    (h : LoadOGG env l j = .panicked m l' evs) : DecodeOncePanic l evs := by
  unfold LoadOGG at h
  split at h
  · cases h
  · split at h
    · cases h
      exact DecodeOncePanic_nil l
    · dsimp only at h
      split at h
      · cases h
        exact DecodeOncePanic_ogg _ (by assumption)
      · split at h
        · cases h
          exact DecodeOncePanic_ogg _ (by assumption)
        · cases h

theorem loadCustomAudio_step_okTrue {env : Env} {l : Loader} {j : AudioID}
    {info : AudioInfo} {a : Audio} {l' : Loader} {evs : List Event}
    (h : loadCustomAudio env l j info = .ok (a, true) l' evs) :
    DecodeOnceStep l l' evs := by
  unfold loadCustomAudio at h
  split at h
  · cases h
    exact DecodeOnceStep_nil rfl rfl rfl
  · split at h
    · cases h
    · dsimp only at h
      split at h
      · split at h <;> cases h
      · split at h
        · split at h <;> cases h
        · split at h
          · cases h
          · cases h
            exact DecodeOnceStep_customStore _ (by assumption)

theorem loadCustomAudio_step_okFalse {env : Env} {l : Loader} {j : AudioID}
    {info : AudioInfo} {a : Audio} {l' : Loader} {evs : List Event}
    (h : loadCustomAudio env l j info = .ok (a, false) l' evs) :
    l' = l ∧ DecodeOncePanic l evs := by
  unfold loadCustomAudio at h
  split at h
  · cases h
  · split at h
    · cases h
      exact ⟨rfl, DecodeOncePanic_nil l⟩
    · dsimp only at h
      split at h
      · split at h
        · cases h
        · cases h
          exact ⟨rfl, DecodeOncePanic_custom _ (by assumption)⟩
      · split at h
        · split at h <;> cases h
        · split at h
          · cases h
          · cases h

theorem loadCustomAudio_step_panic {env : Env} {l : Loader} {j : AudioID}
    {info : AudioInfo} {m : String} {l' : Loader} {evs : List Event}
    (h : loadCustomAudio env l j info = .panicked m l' evs) :
    DecodeOncePanic l evs := by
  unfold loadCustomAudio at h
  split at h
  · cases h
  · split at h
    · cases h
    · dsimp only at h
      split at h
      · split at h
        · cases h
          exact DecodeOncePanic_custom _ (by assumption)
        · cases h
      · split at h
        · split at h <;> (cases h; exact DecodeOncePanic_custom _ (by assumption))
        · split at h
          · cases h
            exact DecodeOncePanic_custom _ (by assumption)
          · cases h

theorem LoadAudio_step_ok {env : Env} {l : Loader} {j : AudioID} {a : Audio}
    {l' : Loader} {evs : List Event}
    (h : LoadAudio env l j = .ok a l' evs) : DecodeOnceStep l l' evs := by
  unfold LoadAudio at h
  split at h
  · cases h
  · dsimp only at h
    split at h
    · exact LoadOGG_step_ok h
    · split at h
      · exact LoadWAV_step_ok h
      · split at h
        · split at h
          · next heq =>
            cases h
            exact loadCustomAudio_step_okTrue heq
          · cases h
          · cases h
        · cases h

theorem LoadAudio_step_panic {env : Env} {l : Loader} {j : AudioID} {m : String}
    {l' : Loader} {evs : List Event}
    (h : LoadAudio env l j = .panicked m l' evs) : DecodeOncePanic l evs := by
  unfold LoadAudio at h
  split at h
  · cases h
    exact DecodeOncePanic_nil l
  · dsimp only at h
    split at h
    · exact LoadOGG_step_panic h
    · split at h
      · exact LoadWAV_step_panic h
      · split at h
        · split at h
          · cases h
          · next heq =>
            cases h
            exact (loadCustomAudio_step_okFalse heq).2
          · next heq =>
            cases h
            exact loadCustomAudio_step_panic heq
        · cases h
          exact DecodeOncePanic_nil l

theorem runAudioOp_step_ok {env : Env} {l : Loader} {op : AudioOp}
    {l' : Loader} {evs : List Event}
    (h : runAudioOp env l op = .ok () l' evs) : DecodeOnceStep l l' evs := by
  cases op with
  | set id info =>
    cases h
    exact DecodeOnceStep_nil rfl rfl rfl
  | setCustomLoader f =>
    cases h
    exact DecodeOnceStep_nil rfl rfl rfl
  | loadAudio id =>
    simp only [runAudioOp] at h
    cases hx : LoadAudio env l id with
    | ok a l2 evs2 =>
      rw [hx] at h
      cases h
      exact LoadAudio_step_ok hx
    | panicked m2 l2 evs2 =>
      rw [hx] at h
      cases h
  | loadWAV id =>
    simp only [runAudioOp] at h
    cases hx : LoadWAV env l id with
    | ok a l2 evs2 =>
      rw [hx] at h
      cases h
      exact LoadWAV_step_ok hx
    | panicked m2 l2 evs2 =>
      rw [hx] at h
      cases h
  | loadOGG id =>
    simp only [runAudioOp] at h
    cases hx : LoadOGG env l id with
    | ok a l2 evs2 =>
      rw [hx] at h
      cases h
      exact LoadOGG_step_ok hx
    | panicked m2 l2 evs2 =>
      rw [hx] at h
      cases h

theorem runAudioOp_step_panic {env : Env} {l : Loader} {op : AudioOp}
    {m : String} {l' : Loader} {evs : List Event}
    (h : runAudioOp env l op = .panicked m l' evs) : DecodeOncePanic l evs := by
  cases op with
  | set id info => cases h
  | setCustomLoader f => cases h
  | loadAudio id =>
    simp only [runAudioOp] at h
    cases hx : LoadAudio env l id with
    | ok a l2 evs2 =>
      rw [hx] at h
      cases h
    | panicked m2 l2 evs2 =>
      rw [hx] at h
      cases h
      exact LoadAudio_step_panic hx
  | loadWAV id =>
    simp only [runAudioOp] at h
    cases hx : LoadWAV env l id with
    | ok a l2 evs2 =>
      rw [hx] at h
      cases h
    | panicked m2 l2 evs2 =>
      rw [hx] at h
      cases h
      exact LoadWAV_step_panic hx
  | loadOGG id =>
    simp only [runAudioOp] at h
    cases hx : LoadOGG env l id with
    | ok a l2 evs2 =>
      rw [hx] at h
      cases h
    | panicked m2 l2 evs2 =>
      rw [hx] at h
      cases h
      exact LoadOGG_step_panic hx

theorem inv_combine {α : Type} {ct ce : ℕ} {o o' : Option α}
    (h1 : ct ≤ 1) (h2 : 1 ≤ ct → o.isSome = true)
    (s1 : ce ≤ 1) (s2 : 1 ≤ ce → o = none ∧ o'.isSome = true)
    (s3 : o.isSome = true → o'.isSome = true) :
    ct + ce ≤ 1 ∧ (1 ≤ ct + ce → o'.isSome = true) := by
  by_cases hce : 1 ≤ ce
  · obtain ⟨hnone, hafter⟩ := s2 hce
    have hct : ct = 0 := by
      by_contra hne
      have hs := h2 (Nat.one_le_iff_ne_zero.mpr hne)
      rw [hnone] at hs
      cases hs
    refine ⟨by omega, fun _ => hafter⟩
  · have hce0 : ce = 0 := by omega
    refine ⟨by omega, fun hsum => ?_⟩
    exact s3 (h2 (by omega))

theorem inv_combine_panic {α : Type} {ct ce : ℕ} {o : Option α}
    (h1 : ct ≤ 1) (h2 : 1 ≤ ct → o.isSome = true)
    (s1 : ce ≤ 1) (s2 : 1 ≤ ce → o = none) :
    ct + ce ≤ 1 := by
  by_cases hce : 1 ≤ ce
  · have hnone := s2 hce
    have hct : ct = 0 := by
      by_contra hne
      have hs := h2 (Nat.one_le_iff_ne_zero.mpr hne)
      rw [hnone] at hs
      cases hs
    omega
  · omega

theorem TraceInv_extend_ok {l l' : Loader} {t evs : List Event}
    (hI : TraceInv l t) (hs : DecodeOnceStep l l' evs) :
    TraceInv l' (t ++ evs) := by
  intro id
  obtain ⟨⟨hw1, hw2⟩, ⟨ho1, ho2⟩, ⟨hc1, hc2⟩⟩ := hI id
  obtain ⟨⟨sw1, sw2, sw3⟩, ⟨so1, so2, so3⟩, ⟨sc1, sc2, sc3⟩⟩ := hs id
  refine ⟨?_, ?_, ?_⟩ <;> rw [List.countP_append]
  · exact inv_combine hw1 hw2 sw1 sw2 sw3
  · exact inv_combine ho1 ho2 so1 so2 so3
  · exact inv_combine hc1 hc2 sc1 sc2 sc3

theorem TraceInv_counts_panic {l : Loader} {t evs : List Event}
    (hI : TraceInv l t) (hp : DecodeOncePanic l evs) (id : AudioID) :
    (t ++ evs).countP (Event.isWavDecodeFor id) ≤ 1 ∧
    (t ++ evs).countP (Event.isOggDecodeFor id) ≤ 1 ∧
    (t ++ evs).countP (Event.isCustomDecodeFor id) ≤ 1 := by
  obtain ⟨⟨hw1, hw2⟩, ⟨ho1, ho2⟩, ⟨hc1, hc2⟩⟩ := hI id
  obtain ⟨⟨sw1, sw2⟩, ⟨so1, so2⟩, ⟨sc1, sc2⟩⟩ := hp id
  refine ⟨?_, ?_, ?_⟩ <;> rw [List.countP_append]
  · exact inv_combine_panic hw1 hw2 sw1 sw2
  · exact inv_combine_panic ho1 ho2 so1 so2
  · exact inv_combine_panic hc1 hc2 sc1 sc2

theorem runAudioOps_decode_counts (env : Env) :
    ∀ (ops : List AudioOp) (l : Loader) (t : List Event), TraceInv l t →
    ∀ id : AudioID,
      (t ++ (runAudioOps env l ops).2.1).countP (Event.isWavDecodeFor id) ≤ 1 ∧
      (t ++ (runAudioOps env l ops).2.1).countP (Event.isOggDecodeFor id) ≤ 1 ∧
      (t ++ (runAudioOps env l ops).2.1).countP
        (Event.isCustomDecodeFor id) ≤ 1 := by
  intro ops
  induction ops with
  | nil =>
    intro l t hI id
    obtain ⟨⟨hw1, _⟩, ⟨ho1, _⟩, ⟨hc1, _⟩⟩ := hI id
    simpa [runAudioOps] using ⟨hw1, ho1, hc1⟩
  | cons op rest ih =>
    intro l t hI id
    cases hop : runAudioOp env l op with
    | ok u l2 evs =>
      cases u
      have hI2 : TraceInv l2 (t ++ evs) :=
        TraceInv_extend_ok hI (runAudioOp_step_ok hop)
      have hrec := ih l2 (t ++ evs) hI2 id
      unfold runAudioOps
      rw [hop]
      dsimp only
      rw [show t ++ (evs ++ (runAudioOps env l2 rest).2.1) =
        (t ++ evs) ++ (runAudioOps env l2 rest).2.1 from
        (List.append_assoc t evs _).symm]
      exact hrec
    | panicked m l2 evs =>
      have hp := runAudioOp_step_panic hop
      unfold runAudioOps
      rw [hop]
      dsimp only
      exact TraceInv_counts_panic hI hp id

/-- C4 amended: over any single-threaded sequence of `Set`,
`LoadAudio`, `LoadWAV`, `LoadOGG` and custom-loader (re)assignments
starting from a fresh loader, each audio identifier is decoded at
most once per sub-format (WAV, OGG, custom).  Re-registering an id
with a path of a different suffix between loads can still trigger a
second decode into the other sub-format table, so the per-identifier
guarantee holds per sub-format, not globally. -/
theorem C4_per_subformat_decode_once (env : Env)
    (openAsset : String → Reader) (ops : List AudioOp) (id : AudioID) :
    (runAudioOps env (NewLoader openAsset) ops).2.1.countP
        (Event.isWavDecodeFor id) ≤ 1 ∧
    (runAudioOps env (NewLoader openAsset) ops).2.1.countP
        (Event.isOggDecodeFor id) ≤ 1 ∧
    (runAudioOps env (NewLoader openAsset) ops).2.1.countP
        (Event.isCustomDecodeFor id) ≤ 1 := by
  have hI : TraceInv (NewLoader openAsset) [] := by
    intro j
    exact ⟨⟨by simp, by simp⟩, ⟨by simp, by simp⟩, ⟨by simp, by simp⟩⟩
  have h := runAudioOps_decode_counts env ops (NewLoader openAsset) [] hI id
  simpa using h

/-- C4 counterexample: register id 1 as "a.wav", load, re-register
the same id as "a.ogg", load again — the run finishes without a
panic, and the trace holds two decodes for identifier 1 (one WAV, one
OGG): the format is not fixed once determined. -/
theorem C4_counterexample :
    (runAudioOps demoEnv (NewLoader demoOpen) c4ops).2.1 =
      [.openAsset "a.wav", .decodeWav 1 "a.wav", .closeAsset "a.wav",
        .openAsset "a.ogg", .decodeOgg 1 "a.ogg"] ∧
    (runAudioOps demoEnv (NewLoader demoOpen) c4ops).2.1.countP
        (Event.isAudioDecodeFor 1) = 2 ∧
    (runAudioOps demoEnv (NewLoader demoOpen) c4ops).2.2 = false := by
  refine ⟨by decide, by decide, by decide⟩

theorem LoadFont_hit {env : Env} {l : Loader} {id : FontID} {f : Font}
    (h : mapLookup l.fonts id = some f) : LoadFont env l id = .ok f l [] := by
  unfold LoadFont
  rw [h]

theorem LoadFont_ok_cached {env : Env} {l : Loader} {id : FontID} {f : Font}
    {l' : Loader} {evs : List Event}
    (h : LoadFont env l id = .ok f l' evs) : mapLookup l'.fonts id = some f := by
  unfold LoadFont at h
  split at h
  · cases h
    assumption
  · split at h
    · cases h
    · dsimp only at h
      split at h
      · split at h <;> cases h
      · split at h
        · split at h <;> cases h
        · split at h
          · split at h <;> cases h
          · split at h
            · cases h
            · cases h
              exact mapLookup_mapSet_self ..

theorem LoadFont_miss_ok_trace {env : Env} {l : Loader} {id : FontID}
    {f : Font} {l' : Loader} {evs : List Event}
    (h : LoadFont env l id = .ok f l' evs)
    (hmiss : mapLookup l.fonts id = none) :
    ∃ p, evs = [.openAsset p, .readFont id p, .closeAsset p] := by
  unfold LoadFont at h
  split at h
  · next a heq =>
      rw [hmiss] at heq
      cases heq
  · split at h
    · cases h
    · dsimp only at h
      split at h
      · split at h <;> cases h
      · split at h
        · split at h <;> cases h
        · split at h
          · split at h <;> cases h
          · split at h
            · cases h
            · cases h
              exact ⟨_, rfl⟩

theorem LoadShader_hit {env : Env} {l : Loader} {id : ShaderID} {s : Shader}
    (h : mapLookup l.shaders id = some s) : LoadShader env l id = .ok s l [] := by
  unfold LoadShader
  rw [h]

theorem LoadShader_ok_cached {env : Env} {l : Loader} {id : ShaderID}
    {s : Shader} {l' : Loader} {evs : List Event}
    (h : LoadShader env l id = .ok s l' evs) :
    mapLookup l'.shaders id = some s := by
  unfold LoadShader at h
  split at h
  · cases h
    assumption
  · split at h
    · cases h
    · dsimp only at h
      split at h
      · split at h <;> cases h
      · split at h
        · split at h <;> cases h
        · split at h
          · cases h
          · cases h
            exact mapLookup_mapSet_self ..

theorem LoadShader_miss_ok_trace {env : Env} {l : Loader} {id : ShaderID}
    {s : Shader} {l' : Loader} {evs : List Event}
    (h : LoadShader env l id = .ok s l' evs)
    (hmiss : mapLookup l.shaders id = none) :
    ∃ p, evs = [.openAsset p, .readShader id p, .closeAsset p] := by
  unfold LoadShader at h
  split at h
  · next a heq =>
      rw [hmiss] at heq
      cases heq
  · split at h
    · cases h
    · dsimp only at h
      split at h
      · split at h <;> cases h
      · split at h
        · split at h <;> cases h
        · split at h
          · cases h
          · cases h
            exact ⟨_, rfl⟩

theorem LoadWAV_miss_ok_trace {env : Env} {l : Loader} {id : AudioID}
    {a : Audio} {l' : Loader} {evs : List Event}
    (h : LoadWAV env l id = .ok a l' evs)
    (hmiss : mapLookup l.wavs id = none) :
    ∃ p, evs = [.openAsset p, .decodeWav id p, .closeAsset p] := by
  unfold LoadWAV at h
  split at h
  · next a0 heq =>
      rw [hmiss] at heq
      cases heq
  · split at h
    · cases h
    · dsimp only at h
      split at h
      · split at h <;> cases h
      · split at h
        · split at h
          · split at h <;> cases h
          · split at h
            · cases h
            · cases h
              exact ⟨_, rfl⟩
        · split at h
          · split at h <;> cases h
          · split at h
            · cases h
            · cases h
              exact ⟨_, rfl⟩

theorem LoadOGG_hit {env : Env} {l : Loader} {id : AudioID} {a : Audio}
    (h : mapLookup l.oggs id = some a) : LoadOGG env l id = .ok a l [] := by
  unfold LoadOGG
  rw [h]

theorem LoadOGG_ok_cached {env : Env} {l : Loader} {id : AudioID} {a : Audio}
    {l' : Loader} {evs : List Event}
    (h : LoadOGG env l id = .ok a l' evs) : mapLookup l'.oggs id = some a := by
  unfold LoadOGG at h
  split at h
  · cases h
    assumption
  · split at h
    · cases h
    · dsimp only at h
      split at h
      · cases h
      · split at h
        · cases h
        · cases h
          exact mapLookup_mapSet_self ..

theorem LoadOGG_miss_ok_trace {env : Env} {l : Loader} {id : AudioID}
    {a : Audio} {l' : Loader} {evs : List Event}
    (h : LoadOGG env l id = .ok a l' evs)
    (hmiss : mapLookup l.oggs id = none) :
    ∃ p, evs = [.openAsset p, .decodeOgg id p] := by
  unfold LoadOGG at h
  split at h
  · next a0 heq =>
      rw [hmiss] at heq
      cases heq
  · split at h
    · cases h
    · dsimp only at h
      split at h
      · cases h
      · split at h
        · cases h
        · cases h
          exact ⟨_, rfl⟩

theorem LoadWAV_ok_registry {env : Env} {l : Loader} {id : AudioID} {a : Audio}
    {l' : Loader} {evs : List Event}
    (h : LoadWAV env l id = .ok a l' evs) :
    l'.audioRegistry = l.audioRegistry := by
  unfold LoadWAV at h
  split at h
  · cases h
    rfl
  · split at h
    · cases h
    · dsimp only at h
      split at h
      · split at h <;> cases h
      · split at h
        · split at h
          · split at h <;> cases h
          · split at h
            · cases h
            · cases h
              rfl
        · split at h
          · split at h <;> cases h
          · split at h
            · cases h
            · cases h
              rfl

theorem LoadOGG_ok_registry {env : Env} {l : Loader} {id : AudioID} {a : Audio}
    {l' : Loader} {evs : List Event}
    (h : LoadOGG env l id = .ok a l' evs) :
    l'.audioRegistry = l.audioRegistry := by
  unfold LoadOGG at h
  split at h
  · cases h
    rfl
  · split at h
    · cases h
    · dsimp only at h
      split at h
      · cases h
      · split at h
        · cases h
        · cases h
          rfl

theorem loadCustomAudio_hit {env : Env} {l : Loader} {id : AudioID}
    {info : AudioInfo} {a : Audio}
    (h : mapLookup l.customAudio id = some a) :
    loadCustomAudio env l id info = .ok (a, true) l [] := by
  unfold loadCustomAudio
  rw [h]

theorem loadCustomAudio_okTrue_cached {env : Env} {l : Loader} {id : AudioID}
    {info : AudioInfo} {a : Audio} {l' : Loader} {evs : List Event}
    (h : loadCustomAudio env l id info = .ok (a, true) l' evs) :
    mapLookup l'.customAudio id = some a := by
  unfold loadCustomAudio at h
  split at h
  · cases h
    assumption
  · split at h
    · cases h
    · dsimp only at h
      split at h
      · split at h <;> cases h
      · split at h
        · split at h <;> cases h
        · split at h
          · cases h
          · cases h
            exact mapLookup_mapSet_self ..

theorem loadCustomAudio_okTrue_registry {env : Env} {l : Loader} {id : AudioID}
    {info : AudioInfo} {a : Audio} {l' : Loader} {evs : List Event}
    (h : loadCustomAudio env l id info = .ok (a, true) l' evs) :
    l'.audioRegistry = l.audioRegistry := by
  unfold loadCustomAudio at h
  split at h
  · cases h
    rfl
  · split at h
    · cases h
    · dsimp only at h
      split at h
      · split at h <;> cases h
      · split at h
        · split at h <;> cases h
        · split at h
          · cases h
          · cases h
            rfl

theorem getAudioInfo_ok_lookup {l : Loader} {id : AudioID} {info : AudioInfo}
    (h : getAudioInfo l id = .ok info) :
    mapLookup l.audioRegistry id = some info := by
  cases hm : mapLookup l.audioRegistry id with
  | some i =>
    simp only [getAudioInfo, hm] at h
    cases h
    rfl
  | none =>
    simp only [getAudioInfo, hm] at h
    cases h

theorem LoadAudio_ok_rerun {env : Env} {l : Loader} {id : AudioID} {a : Audio}
    {l' : Loader} {evs : List Event}
    (h : LoadAudio env l id = .ok a l' evs) : LoadAudio env l' id = .ok a l' [] := by
  unfold LoadAudio at h
  split at h
  · cases h
  · next info heq =>
    have hreg : mapLookup l.audioRegistry id = some info :=
      getAudioInfo_ok_lookup heq
    dsimp only at h
    split at h
    · next hogg =>
      have hget2 : getAudioInfo l' id = .ok info := by
        simp [getAudioInfo, LoadOGG_ok_registry h, hreg]
      have hc : mapLookup l'.oggs id = some a := LoadOGG_ok_cached h
      unfold LoadAudio
      rw [hget2]
      dsimp only
      rw [if_pos hogg]
      exact LoadOGG_hit hc
    · next hogg =>
      split at h
      · next hwav =>
        have hget2 : getAudioInfo l' id = .ok info := by
          simp [getAudioInfo, LoadWAV_ok_registry h, hreg]
        have hc : mapLookup l'.wavs id = some a := LoadWAV_ok_cached h
        unfold LoadAudio
        rw [hget2]
        dsimp only
        rw [if_neg hogg, if_pos hwav]
        exact LoadWAV_hit hc
      · next hwav =>
        split at h
        · split at h
          · next heq2 =>
            cases h
            have hc := loadCustomAudio_okTrue_cached heq2
            have hget2 : getAudioInfo l' id = .ok info := by
              simp [getAudioInfo, loadCustomAudio_okTrue_registry heq2, hreg]
            have hlen := mapLookup_some_length_pos hc
            unfold LoadAudio
            rw [hget2]
            dsimp only
            rw [if_neg hogg, if_neg hwav, if_pos (Or.inl hlen)]
            rw [loadCustomAudio_hit hc]
          · cases h
          · cases h
        · cases h

/-- C1: for every resource kind — raw, image, font, shader, wav, ogg,
and the LoadAudio dispatcher — once a load succeeds, an immediately
following load of the same kind and id returns the very same resource
object with an empty trace (no asset open, no decode, no
re-validation); on a cache miss the successful first call opened the
asset exactly once and ran the kind's decode/read exactly once. -/
theorem C1_sequential_load_memoizes :
    (∀ (env : Env) (l : Loader) (id : RawID) (raw : Raw) (l' : Loader)
        (evs : List Event),
        LoadRaw env l id = .ok raw l' evs →
        LoadRaw env l' id = .ok raw l' [] ∧
          (mapLookup l.raws id = none →
            evs.countP Event.isOpen = 1 ∧
              evs.countP (Event.isRawReadFor id) = 1)) ∧
    (∀ (env : Env) (l : Loader) (id : ImageID) (img : Image) (l' : Loader)
        (evs : List Event),
        LoadImage env l id = .ok img l' evs →
        LoadImage env l' id = .ok img l' [] ∧
          (mapLookup l.images id = none →
            evs.countP Event.isOpen = 1 ∧
              evs.countP (Event.isImageDecodeFor id) = 1)) ∧
    (∀ (env : Env) (l : Loader) (id : FontID) (f : Font) (l' : Loader)
        (evs : List Event),
        LoadFont env l id = .ok f l' evs →
        LoadFont env l' id = .ok f l' [] ∧
          (mapLookup l.fonts id = none →
            evs.countP Event.isOpen = 1 ∧
              evs.countP (Event.isFontReadFor id) = 1)) ∧
    (∀ (env : Env) (l : Loader) (id : ShaderID) (s : Shader) (l' : Loader)
        (evs : List Event),
        LoadShader env l id = .ok s l' evs →
        LoadShader env l' id = .ok s l' [] ∧
          (mapLookup l.shaders id = none →
            evs.countP Event.isOpen = 1 ∧
              evs.countP (Event.isShaderReadFor id) = 1)) ∧
    (∀ (env : Env) (l : Loader) (id : AudioID) (a : Audio) (l' : Loader)
        (evs : List Event),
        LoadWAV env l id = .ok a l' evs →
        LoadWAV env l' id = .ok a l' [] ∧
          (mapLookup l.wavs id = none →
            evs.countP Event.isOpen = 1 ∧
              evs.countP (Event.isWavDecodeFor id) = 1)) ∧
    (∀ (env : Env) (l : Loader) (id : AudioID) (a : Audio) (l' : Loader)
        (evs : List Event),
        LoadOGG env l id = .ok a l' evs →
        LoadOGG env l' id = .ok a l' [] ∧
          (mapLookup l.oggs id = none →
            evs.countP Event.isOpen = 1 ∧
              evs.countP (Event.isOggDecodeFor id) = 1)) ∧
    (∀ (env : Env) (l : Loader) (id : AudioID) (a : Audio) (l' : Loader)
        (evs : List Event),
        LoadAudio env l id = .ok a l' evs →
        LoadAudio env l' id = .ok a l' []) := by
  refine ⟨?_, ?_, ?_, ?_, ?_, ?_, ?_⟩
  · intro env l id raw l' evs h
    refine ⟨LoadRaw_hit (LoadRaw_ok_cached h), ?_⟩
    intro hmiss
    obtain ⟨p, rfl⟩ := LoadRaw_miss_ok_trace h hmiss
    simp [List.countP_cons, Event.isOpen, Event.isRawReadFor]
  · intro env l id img l' evs h
    refine ⟨LoadImage_hit (LoadImage_ok_cached h), ?_⟩
    intro hmiss
    obtain ⟨p, rfl⟩ := LoadImage_miss_ok_trace h hmiss
    simp [List.countP_cons, Event.isOpen, Event.isImageDecodeFor]
  · intro env l id f l' evs h
    refine ⟨LoadFont_hit (LoadFont_ok_cached h), ?_⟩
    intro hmiss
    obtain ⟨p, rfl⟩ := LoadFont_miss_ok_trace h hmiss
    simp [List.countP_cons, Event.isOpen, Event.isFontReadFor]
  · intro env l id s l' evs h
    refine ⟨LoadShader_hit (LoadShader_ok_cached h), ?_⟩
    intro hmiss
    obtain ⟨p, rfl⟩ := LoadShader_miss_ok_trace h hmiss
    simp [List.countP_cons, Event.isOpen, Event.isShaderReadFor]
  · intro env l id a l' evs h
    refine ⟨LoadWAV_hit (LoadWAV_ok_cached h), ?_⟩
    intro hmiss
    obtain ⟨p, rfl⟩ := LoadWAV_miss_ok_trace h hmiss
    simp [List.countP_cons, Event.isOpen, Event.isWavDecodeFor]
  · intro env l id a l' evs h
    refine ⟨LoadOGG_hit (LoadOGG_ok_cached h), ?_⟩
    intro hmiss
    obtain ⟨p, rfl⟩ := LoadOGG_miss_ok_trace h hmiss
    simp [List.countP_cons, Event.isOpen, Event.isOggDecodeFor]
  · intro env l id a l' evs h
    exact LoadAudio_ok_rerun h

/-- Witness for C1: the end-to-end raw example (id 1 at "a.json"),
the image example (id 1 at "i.png"), and the audio dispatcher on the
ogg example (id 2 at "b.ogg"): each second load returns the same
object with an empty trace. -/
theorem C1_witness :
    (LoadRaw demoEnv demoRawLoader 1 =
        .ok demoRawValue demoRawState
          [.openAsset "a.json", .readRaw 1 "a.json", .closeAsset "a.json"] ∧
      LoadRaw demoEnv demoRawState 1 = .ok demoRawValue demoRawState []) ∧
    (LoadImage demoEnv demoImageLoader 1 =
        .ok demoImageValue demoImageState
          [.openAsset "i.png", .decodeImage 1 "i.png", .closeAsset "i.png"] ∧
      LoadImage demoEnv demoImageState 1 = .ok demoImageValue demoImageState []) ∧
    (LoadAudio demoEnv demoOggLoader 2 =
        .ok demoOggValue demoOggState
          [.openAsset "b.ogg", .decodeOgg 2 "b.ogg"] ∧
      LoadAudio demoEnv demoOggState 2 = .ok demoOggValue demoOggState []) := by
  have h1 : LoadRaw demoEnv demoRawLoader 1 =
      .ok demoRawValue demoRawState
        [.openAsset "a.json", .readRaw 1 "a.json", .closeAsset "a.json"] := rfl
  have h2 : LoadImage demoEnv demoImageLoader 1 =
      .ok demoImageValue demoImageState
        [.openAsset "i.png", .decodeImage 1 "i.png", .closeAsset "i.png"] := rfl
  have h3 : LoadAudio demoEnv demoOggLoader 2 =
      .ok demoOggValue demoOggState
        [.openAsset "b.ogg", .decodeOgg 2 "b.ogg"] := rfl
  exact ⟨⟨h1, (C1_sequential_load_memoizes.1 demoEnv demoRawLoader 1 _ _ _ h1).1⟩,
    ⟨h2, (C1_sequential_load_memoizes.2.1 demoEnv demoImageLoader 1 _ _ _ h2).1⟩,
    ⟨h3, C1_sequential_load_memoizes.2.2.2.2.2.2 demoEnv demoOggLoader 2 _ _ _ h3⟩⟩
